import Mathlib

/-!
Verification of the todoist sync service against its specification.

This file gives a shallow embedding, in Lean 4, of the parts of the
repository that the specification claims talk about:

* `app/utils.py`        : payload hashing, label helpers, PARA helpers
* `app/models.py`       : the pydantic data models (tasks, pages, sync state)
* `app/mapper.py`       : the task to page mapping (modelled from the spec,
                          see the doc comments there)
* `app/notion_client.py`: property dictionaries built for page create and
                          update calls
* `app/todoist_client.py`: the label filtered task fetch
* `app/pubsub_worker.py`: the per task state machine (UPSERT and ARCHIVE)
* `app/handlers.py`     : the reverse sweep body of the reconciler
* `app/main.py`         : the queue push endpoint

Pure functions of the source become Lean functions; stateful code is
explicit state passing over a `World` (the Firestore content) plus a trace
of the external calls the code performs.  Machine level details that the
claims depend on are modelled explicitly: notably, pydantic v2 models raise
`AttributeError` when an undeclared attribute is read, which matters
because `app/handlers.py` reads a field that `TaskSyncState` does not
declare.
-/

namespace TodoistSync

/-! ## JSON values and canonical serialization (app/utils.py)

`compute_payload_hash` in `app/utils.py` serializes a payload dictionary
with `orjson.dumps(data, option=orjson.OPT_SORT_KEYS)` (keys sorted
recursively, compact separators, no insignificant whitespace) and hashes
the resulting bytes with SHA-256, returning the hex digest. -/

/-- JSON values as produced by `model_dump()` on the pydantic payload
models: null, booleans, integers, strings, arrays and objects.  The
payloads the service hashes contain no floats. -/
inductive Json where
  | null : Json
  | bool (b : Bool) : Json
  | int (n : Int) : Json
  | str (s : String) : Json
  | arr (xs : List Json) : Json
  | obj (kvs : List (String × Json)) : Json

/-- JSON string escaping as performed by the serializers: quote, backslash
and ASCII control characters are escaped, everything else is copied. -/
def escChar (c : Char) : String :=
  if c = '"' then "\\\""
  else if c = '\\' then "\\\\"
  else if c = '\n' then "\\n"
  else if c = '\t' then "\\t"
  else if c = '\r' then "\\r"
  else if c.toNat < 32 then
    "\\u00" ++ String.mk [Nat.digitChar (c.toNat / 16), Nat.digitChar (c.toNat % 16)]
  else String.singleton c

/-- Serialize a string with quotes and escaping. -/
def escString (s : String) : String :=
  "\"" ++ String.join (s.data.map escChar) ++ "\""

/-- Ordering used on the key and value pairs of a JSON object: compare the
keys.  `orjson.OPT_SORT_KEYS` sorts object keys; payload keys are ASCII so
byte order and codepoint order agree. -/
def keyLe (a b : String × Json) : Bool :=
  decide (a.1 ≤ b.1)

/-- Sort the entries of one object level by key. -/
def sortKeys (kvs : List (String × Json)) : List (String × Json) :=
  kvs.mergeSort keyLe

mutual
/-- Recursively sort the keys of every object in a JSON value.  This models
the key ordering effect of `orjson.OPT_SORT_KEYS`. -/
def canon : Json → Json
  | .null => .null
  | .bool b => .bool b
  | .int n => .int n
  | .str s => .str s
  | .arr xs => .arr (canonArr xs)
  | .obj kvs => .obj (sortKeys (canonObj kvs))

/-- Canonicalize every element of a JSON array. -/
def canonArr : List Json → List Json
  | [] => []
  | x :: rest => canon x :: canonArr rest

/-- Canonicalize every value of a JSON object, keeping the entry order. -/
def canonObj : List (String × Json) → List (String × Json)
  | [] => []
  | (k, v) :: rest => (k, canon v) :: canonObj rest
end

mutual
/-- Compact JSON serialization: separators are a bare comma and colon, with
no insignificant whitespace, as `orjson.dumps` emits. -/
def dumps : Json → String
  | .null => "null"
  | .bool b => if b then "true" else "false"
  | .int n => toString n
  | .str s => escString s
  | .arr xs => "[" ++ dumpsArr xs ++ "]"
  | .obj kvs => "\x7b" ++ dumpsObj kvs ++ "\x7d"

/-- Serialize array elements, comma separated. -/
def dumpsArr : List Json → String
  | [] => ""
  | [x] => dumps x
  | x :: rest => dumps x ++ "," ++ dumpsArr rest

/-- Serialize object entries, comma separated, key before value. -/
def dumpsObj : List (String × Json) → String
  | [] => ""
  | [(k, v)] => escString k ++ ":" ++ dumps v
  | (k, v) :: rest => escString k ++ ":" ++ dumps v ++ "," ++ dumpsObj rest
end

/-! ## SHA-256 (hashlib.sha256, as called by both hash helpers) -/

/-- Right rotation on 32 bit words. -/
def rotr (x : UInt32) (n : Nat) : UInt32 :=
  (x >>> UInt32.ofNat n) ||| (x <<< UInt32.ofNat (32 - n))

/-- The 64 SHA-256 round constants (FIPS 180-4, in decimal). -/
def sha256K : List UInt32 :=
  [1116352408, 1899447441, 3049323471, 3921009573, 961987163,
   1508970993, 2453635748, 2870763221, 3624381080, 310598401,
   607225278, 1426881987, 1925078388, 2162078206, 2614888103,
   3248222580, 3835390401, 4022224774, 264347078, 604807628,
   770255983, 1249150122, 1555081692, 1996064986, 2554220882,
   2821834349, 2952996808, 3210313671, 3336571891, 3584528711,
   113926993, 338241895, 666307205, 773529912, 1294757372,
   1396182291, 1695183700, 1986661051, 2177026350, 2456956037,
   2730485921, 2820302411, 3259730800, 3345764771, 3516065817,
   3600352804, 4094571909, 275423344, 430227734, 506948616,
   659060556, 883997877, 958139571, 1322822218, 1537002063,
   1747873779, 1955562222, 2024104815, 2227730452, 2361852424,
   2428436474, 2756734187, 3204031479, 3329325298]

/-- The SHA-256 initial hash state (FIPS 180-4, in decimal). -/
def sha256Init : List UInt32 :=
  [1779033703, 3144134277, 1013904242, 2773480762, 1359893119,
   2600822924, 528734635, 1541459225]

/-- Read a big endian 32 bit word from the first four bytes of a list. -/
def word32 (bs : List UInt8) : UInt32 :=
  match bs with
  | b0 :: b1 :: b2 :: b3 :: _ =>
      (b0.toUInt32 <<< 24) ||| (b1.toUInt32 <<< 16) ||| (b2.toUInt32 <<< 8) ||| b3.toUInt32
  | _ => 0

/-- Split the padded message into the sixteen initial schedule words of one
64 byte chunk. -/
def chunkWords (chunk : List UInt8) : List UInt32 :=
  (List.range 16).map (fun i => word32 (chunk.drop (4 * i)))

/-- Extend sixteen schedule words to sixty four. -/
def extendWords (w : Array UInt32) : Array UInt32 :=
  (List.range 48).foldl
    (fun w i =>
      let t := i + 16
      let w15 := w.getD (t - 15) 0
      let w2 := w.getD (t - 2) 0
      let s0 := rotr w15 7 ^^^ rotr w15 18 ^^^ (w15 >>> 3)
      let s1 := rotr w2 17 ^^^ rotr w2 19 ^^^ (w2 >>> 10)
      w.push (w.getD (t - 16) 0 + s0 + w.getD (t - 7) 0 + s1))
    w

/-- One round of the SHA-256 compression function. -/
def sha256Round (st : List UInt32) (kw : UInt32 × UInt32) : List UInt32 :=
  match st with
  | [a, b, c, d, e, f, g, h] =>
      let s1 := rotr e 6 ^^^ rotr e 11 ^^^ rotr e 25
      let ch := (e &&& f) ^^^ ((~~~e) &&& g)
      let t1 := h + s1 + ch + kw.1 + kw.2
      let s0 := rotr a 2 ^^^ rotr a 13 ^^^ rotr a 22
      let mj := (a &&& b) ^^^ (a &&& c) ^^^ (b &&& c)
      let t2 := s0 + mj
      [t1 + t2, a, b, c, d + t1, e, f, g]
  | st => st

/-- Compress one 64 byte chunk into the running hash state. -/
def sha256Compress (st : List UInt32) (chunk : List UInt8) : List UInt32 :=
  let w := extendWords (Array.mk (chunkWords chunk))
  let final := (sha256K.zip w.toList).foldl sha256Round st
  st.zipWith (· + ·) final

/-- SHA-256 padding: append 0x80, zero bytes to 56 mod 64, then the bit
length as a big endian 64 bit integer. -/
def sha256Pad (msg : List UInt8) : List UInt8 :=
  let len := msg.length
  let zeros := (55 + 2 * 64 - len % 64) % 64
  let bitLen := 8 * len
  msg ++ [(0x80 : UInt8)] ++ List.replicate zeros (0 : UInt8) ++
    (List.range 8).map (fun i => UInt8.ofNat (bitLen / 256 ^ (7 - i) % 256))

/-- Fold the compression function over the 64 byte chunks of the padded
message, with the list length as fuel. -/
def sha256Chunks : Nat → List UInt8 → List UInt32 → List UInt32
  | 0, _, st => st
  | _ + 1, [], st => st
  | fuel + 1, bytes, st => sha256Chunks fuel (bytes.drop 64) (sha256Compress st (bytes.take 64))

/-- Hex digit characters of one byte. -/
def byteHex (b : UInt8) : String :=
  String.mk [Nat.digitChar (b.toNat / 16), Nat.digitChar (b.toNat % 16)]

/-- SHA-256 of a byte list, returned as a lowercase hex string, as
`hashlib.sha256(...).hexdigest()` returns. -/
def sha256Hex (msg : List UInt8) : String :=
  let padded := sha256Pad msg
  let st := sha256Chunks (padded.length) padded sha256Init
  String.join (st.map (fun w =>
    byteHex (UInt8.ofNat (w.toNat / 16777216)) ++
    byteHex (UInt8.ofNat (w.toNat / 65536 % 256)) ++
    byteHex (UInt8.ofNat (w.toNat / 256 % 256)) ++
    byteHex (UInt8.ofNat (w.toNat % 256))))

/-- UTF-8 bytes of a string. -/
def strBytes (s : String) : List UInt8 :=
  s.toUTF8.toList

/-- Translation of `app/utils.py::compute_payload_hash`: serialize the
payload with sorted keys and no insignificant whitespace, then return the
SHA-256 hex digest of the bytes. -/
def compute_payload_hash (data : Json) : String :=
  sha256Hex (strBytes (dumps (canon data)))

/-! ## Key order equivalence (claim C8)

Two JSON values differ only in the order of keys inside their (possibly
nested) objects.  Python dictionaries cannot carry a duplicate key, which
the `wfJson` predicate captures. -/

mutual
/-- Well formed JSON: every object has pairwise distinct keys.  Payload
dictionaries built by the service satisfy this because Python dict keys
are unique. -/
def wfJson : Json → Bool
  | .null => true
  | .bool _ => true
  | .int _ => true
  | .str _ => true
  | .arr xs => wfArr xs
  | .obj kvs => ((kvs.map Prod.fst).Nodup : Bool) && wfObj kvs

/-- All elements of an array are well formed. -/
def wfArr : List Json → Bool
  | [] => true
  | x :: rest => wfJson x && wfArr rest

/-- All values of an object are well formed. -/
def wfObj : List (String × Json) → Bool
  | [] => true
  | (_, v) :: rest => wfJson v && wfObj rest
end

mutual
/-- The two values differ only in the order of keys within nested maps:
scalars are equal, arrays agree pointwise, and each object of the first is
an entry by entry match (same key, equivalent value) of a permutation of
the second. -/
inductive KeyOrderEq : Json → Json → Prop where
  | null : KeyOrderEq .null .null
  | bool (b : Bool) : KeyOrderEq (.bool b) (.bool b)
  | int (n : Int) : KeyOrderEq (.int n) (.int n)
  | str (s : String) : KeyOrderEq (.str s) (.str s)
  | arr {xs ys : List Json} : KeyOrderEqArr xs ys → KeyOrderEq (.arr xs) (.arr ys)
  | obj {kvs mid kvs' : List (String × Json)} :
      KeyOrderEqObj kvs mid → mid.Perm kvs' → KeyOrderEq (.obj kvs) (.obj kvs')

/-- Pointwise key order equivalence of arrays. -/
inductive KeyOrderEqArr : List Json → List Json → Prop where
  | nil : KeyOrderEqArr [] []
  | cons {x y xs ys} : KeyOrderEq x y → KeyOrderEqArr xs ys → KeyOrderEqArr (x :: xs) (y :: ys)

/-- Pointwise equivalence of object entries: equal keys, equivalent
values. -/
inductive KeyOrderEqObj : List (String × Json) → List (String × Json) → Prop where
  | nil : KeyOrderEqObj [] []
  | cons {k x y kvs kvs'} :
      KeyOrderEq x y → KeyOrderEqObj kvs kvs' → KeyOrderEqObj ((k, x) :: kvs) ((k, y) :: kvs')
end

theorem canonObj_map (l : List (String × Json)) :
    canonObj l = l.map (fun p => (p.1, canon p.2)) := by
  induction l with
  | nil => rfl
  | cons p rest ih => cases p; simp [canonObj, ih]

instance : IsAntisymm (String × Json) (fun a b => a.1 < b.1) :=
  ⟨fun _ _ h₁ h₂ => absurd h₂ (lt_asymm h₁)⟩

theorem sortKeys_eq_of_perm {l₁ l₂ : List (String × Json)} (hp : l₁.Perm l₂)
    (hn : (l₁.map Prod.fst).Nodup) : sortKeys l₁ = sortKeys l₂ := by
  have hkey : ∀ l : List (String × Json), (l.map Prod.fst).Nodup →
      List.Sorted (fun a b : String × Json => a.1 < b.1) (l.mergeSort keyLe) := by
    intro l hl
    have hs : (l.mergeSort keyLe).Pairwise (fun a b => keyLe a b = true) :=
      List.sorted_mergeSort
        (fun a b c hab hbc => by
          simp only [keyLe, decide_eq_true_eq] at *; exact le_trans hab hbc)
        (fun a b => by
          simp only [keyLe, Bool.or_eq_true, decide_eq_true_eq]; exact le_total a.1 b.1)
        l
    have hne : (l.mergeSort keyLe).Pairwise (fun a b : String × Json => a.1 ≠ b.1) := by
      have hperm : List.Perm ((l.mergeSort keyLe).map Prod.fst) (l.map Prod.fst) :=
        (List.mergeSort_perm l keyLe).map Prod.fst
      have hnd : ((l.mergeSort keyLe).map Prod.fst).Nodup := hperm.nodup_iff.mpr hl
      exact List.pairwise_map.mp hnd
    exact (hs.and hne).imp (fun h => by
      rcases h with ⟨h₁, h₂⟩
      simp only [keyLe, decide_eq_true_eq] at h₁
      exact lt_of_le_of_ne h₁ h₂)
  have hn₂ : (l₂.map Prod.fst).Nodup := ((hp.map Prod.fst).nodup_iff).mp hn
  unfold sortKeys
  exact List.eq_of_perm_of_sorted
    (((List.mergeSort_perm l₁ keyLe).trans hp).trans (List.mergeSort_perm l₂ keyLe).symm)
    (hkey l₁ hn) (hkey l₂ hn₂)

theorem keys_eq_of_koeObj {kvs mid : List (String × Json)} (h : KeyOrderEqObj kvs mid) :
    kvs.map Prod.fst = mid.map Prod.fst := by
  induction kvs generalizing mid with
  | nil => cases h; rfl
  | cons p rest ih =>
      cases h with
      | cons hx hrest => simp [ih hrest]

mutual
theorem canon_eq_koe {x y : Json} (h : KeyOrderEq x y) (hw : wfJson x = true) :
    canon x = canon y := by
  cases h with
  | null => rfl
  | bool b => rfl
  | int n => rfl
  | str s => rfl
  | arr ha =>
      simp only [wfJson] at hw
      simp only [canon]
      rw [canonArr_eq_koe ha hw]
  | obj ho hp =>
      rename_i kvs mid kvs'
      simp only [wfJson, Bool.and_eq_true, decide_eq_true_eq] at hw
      simp only [canon]
      rw [canonObj_eq_koe ho hw.2]
      congr 1
      apply sortKeys_eq_of_perm
      · rw [canonObj_map, canonObj_map]
        exact hp.map _
      · rw [canonObj_map, List.map_map]
        have hfst : (Prod.fst ∘ fun p : String × Json => (p.1, canon p.2)) = Prod.fst := rfl
        rw [hfst, ← keys_eq_of_koeObj ho]
        exact hw.1

theorem canonArr_eq_koe {xs ys : List Json} (h : KeyOrderEqArr xs ys) (hw : wfArr xs = true) :
    canonArr xs = canonArr ys := by
  cases h with
  | nil => rfl
  | cons hx hrest =>
      simp only [wfArr, Bool.and_eq_true] at hw
      simp only [canonArr]
      rw [canon_eq_koe hx hw.1, canonArr_eq_koe hrest hw.2]

theorem canonObj_eq_koe {kvs mid : List (String × Json)} (h : KeyOrderEqObj kvs mid)
    (hw : wfObj kvs = true) : canonObj kvs = canonObj mid := by
  cases h with
  | nil => rfl
  | cons hx hrest =>
      simp only [wfObj, Bool.and_eq_true] at hw
      simp only [canonObj]
      rw [canon_eq_koe hx hw.1, canonObj_eq_koe hrest hw.2]
end

/-! ## Python string helpers used by the translated code -/

/-- Substring test, modelling the Python operator `needle in hay`. -/
def containsSubstr (hay needle : String) : Bool :=
  hay.data.tails.any (fun t => needle.data.isPrefixOf t)

/-- Python truthiness of an optional string: `None` and the empty string
are falsy. -/
def pyTruthyOptStr (s : Option String) : Bool :=
  match s with
  | none => false
  | some s => s ≠ ""

/-- Python truthiness of an optional list: `None` and the empty list are
falsy. -/
def pyTruthyOptList (l : Option (List String)) : Bool :=
  match l with
  | none => false
  | some l => l ≠ []

/-- Replace every occurrence of a non empty needle in a character list,
left to right, as Python `str.replace` does; the input length bounds the
number of steps and serves as structural fuel. -/
def replaceSubFuel (needle repl : List Char) : Nat → List Char → List Char
  | 0, cs => cs
  | _ + 1, [] => []
  | fuel + 1, c :: rest =>
      if needle.isPrefixOf (c :: rest) then
        repl ++ replaceSubFuel needle repl fuel ((c :: rest).drop needle.length)
      else c :: replaceSubFuel needle repl fuel rest

/-- Python `str.replace` (all occurrences); an empty pattern leaves the
string unchanged, as the Lean core function also guards. -/
def pyReplace (s pattern replacement : String) : String :=
  if pattern = "" then s
  else String.mk (replaceSubFuel pattern.data replacement.data s.data.length s.data)

/-- Python `str.upper` on the character list. -/
def pyUpper (s : String) : String :=
  String.mk (s.data.map Char.toUpper)

/-- Python `str.strip()` on a character list: drop leading and trailing
whitespace. -/
def pyStrip (cs : List Char) : List Char :=
  ((cs.dropWhile (fun c => c.isWhitespace)).reverse.dropWhile
    (fun c => c.isWhitespace)).reverse

theorem length_dropWhile_le (p : Char → Bool) (l : List Char) :
    (l.dropWhile p).length ≤ l.length := by
  induction l with
  | nil => simp
  | cons c rest ih =>
      simp only [List.dropWhile]
      cases hp : p c
      · simp
      · simpa using Nat.le_succ_of_le ih

theorem pyStrip_length_le (cs : List Char) : (pyStrip cs).length ≤ cs.length := by
  unfold pyStrip
  calc (((cs.dropWhile (fun c => c.isWhitespace)).reverse.dropWhile
          (fun c => c.isWhitespace)).reverse).length
      = ((cs.dropWhile (fun c => c.isWhitespace)).reverse.dropWhile
          (fun c => c.isWhitespace)).length := List.length_reverse _
    _ ≤ (cs.dropWhile (fun c => c.isWhitespace)).reverse.length :=
        length_dropWhile_le _ _
    _ = (cs.dropWhile (fun c => c.isWhitespace)).length := List.length_reverse _
    _ ≤ cs.length := length_dropWhile_le _ _

/-- One pass structure of the label cleaning loops in `app/utils.py`
(`while clean and ord(clean[-1]) > 127: clean = clean[:-1].strip()`,
after an initial `clean = label.strip()`): strip, then while the last
character is non ASCII drop it and strip again.  The loop removes at
least one character per iteration, so the input length bounds the
iteration count and serves as structural fuel. -/
def dropTrailingNonAsciiFuel : Nat → List Char → List Char
  | 0, cs => pyStrip cs
  | fuel + 1, cs =>
      let t := pyStrip cs
      match t.reverse with
      | [] => t
      | c :: _ =>
          if c.toNat > 127 then
            dropTrailingNonAsciiFuel fuel (t.take (t.length - 1))
          else t

/-- String level wrapper for the label cleaning loop. -/
def stripTrailingNonAscii (s : String) : String :=
  String.mk (dropTrailingNonAsciiFuel s.data.length s.data)

/-! ## Configuration (app/settings.py)

The settings object is a process wide singleton loaded from the
environment; the fields below carry the defaults declared in
`app/settings.py`.  The translated functions that read the module global
`settings` take the configuration as an explicit parameter. -/

structure Settings where
  notion_areas_database_id : String
  notion_people_database_id : String
  add_notion_backlink : Bool
  enable_para_areas : Bool
  enable_people_matching : Bool
  auto_label_tasks : Bool
  para_area_labels : List String
  person_label_emoji : String
deriving DecidableEq, Repr

/-- The defaults declared in `app/settings.py` (the optional Notion
databases default to the empty string, meaning unconfigured). -/
def defaultSettings : Settings where
  notion_areas_database_id := ""
  notion_people_database_id := ""
  add_notion_backlink := true
  enable_para_areas := true
  enable_people_matching := true
  auto_label_tasks := true
  para_area_labels := ["HOME", "HEALTH", "PROSPER", "WORK",
    "PERSONAL & FAMILY", "FINANCIAL", "FUN"]
  person_label_emoji := "👤"

/-! ## Data models (app/models.py) -/

/-- Todoist due date information (`app/models.py::TodoistDue`). -/
structure TodoistDue where
  date : String
  string_repr : String
  timezone : Option String
  is_recurring : Bool
deriving DecidableEq, Repr

/-- Todoist task object (`app/models.py::TodoistTask`, API v1 format). -/
structure TodoistTask where
  id : String
  content : String
  description : String
  project_id : String
  section_id : Option String
  parent_id : Option String
  labels : List String
  priority : Int
  due : Option TodoistDue
  added_at : String
  checked : Bool
  completed_at : Option String
  updated_at : Option String
deriving DecidableEq, Repr

/-- Todoist project object (`app/models.py::TodoistProject`). -/
structure TodoistProject where
  id : String
  name : String
  color : String
  is_shared : Bool
  is_archived : Bool
deriving DecidableEq, Repr

/-- Todoist section object (`app/models.py::TodoistSection`). -/
structure TodoistSection where
  id : String
  name : String
  project_id : String
deriving DecidableEq, Repr

/-- Todoist comment object (`app/models.py::TodoistComment`). -/
structure TodoistComment where
  id : String
  task_id : Option String
  item_id : Option String
  content : String
  posted_at : Option String
  added_at : Option String
deriving DecidableEq, Repr

/-- Notion page model for a ToDo item (`app/models.py::NotionToDo`). -/
structure NotionToDo where
  title : String
  body : String
  todoist_task_id : String
  todoist_url : String
  todoist_project_id : String
  todoist_project_name : String
  todoist_labels : List String
  priority : Int
  due_date : Option String
  due_time : Option String
  due_timezone : Option String
  completed : Bool
  completed_at : Option String
  parent_id : Option String
  section_id : Option String
  section_name : Option String
  comments_markdown : String
  created_at : String
  updated_at : String
  last_synced_at : Option String
  sync_status : String
  error_note : Option String
deriving DecidableEq, Repr

/-- Notion page model for a Project (`app/models.py::NotionProject`). -/
structure NotionProject where
  todoist_project_id : String
  name : String
  url : String
  is_shared : Bool
  color : String
  last_synced_at : Option String
deriving DecidableEq, Repr

/-- Sync status enum (`app/models.py::SyncStatus`). -/
inductive SyncStatus where
  | ok
  | archived
  | error
deriving DecidableEq, Repr

/-- String value of a status, as the `str` enum serializes. -/
def SyncStatus.toStr : SyncStatus → String
  | .ok => "ok"
  | .archived => "archived"
  | .error => "error"

/-- Task sync state stored in Firestore (`app/models.py::TaskSyncState`).
These are exactly the declared fields; in particular the model declares no
reverse fingerprint field (no `notion_payload_hash`), which matters for
the reverse sweep in `app/handlers.py`. -/
structure TaskSyncState where
  todoist_task_id : String
  capacities_object_id : Option String
  payload_hash : String
  last_synced_at : Nat
  sync_status : SyncStatus
  error_message : Option String
  sync_source : Option String
deriving DecidableEq, Repr

/-- Project sync state stored in Firestore
(`app/models.py::ProjectSyncState`). -/
structure ProjectSyncState where
  todoist_project_id : String
  capacities_object_id : Option String
  payload_hash : String
  last_synced_at : Nat
deriving DecidableEq, Repr

/-- Sync action enum (`app/models.py::SyncAction`). -/
inductive SyncAction where
  | UPSERT
  | ARCHIVE
deriving DecidableEq, Repr

/-- String value of an action. -/
def SyncAction.toStr : SyncAction → String
  | .UPSERT => "UPSERT"
  | .ARCHIVE => "ARCHIVE"

/-- Pub/Sub message for sync jobs (`app/models.py::PubSubMessage`).  The
snapshot, when present, is the already parsed task payload; the worker
falls back to a live fetch when parsing fails, which the embedding folds
into the absent case. -/
structure PubSubMessage where
  action : SyncAction
  todoist_task_id : String
  snapshot : Option TodoistTask
deriving DecidableEq, Repr

/-! ## Python level semantics of the pydantic models

Pydantic v2 models expose exactly their declared fields.  Reading an
undeclared attribute raises `AttributeError`; assigning one raises
`ValueError`.  The embedding routes dynamic attribute access through the
dumped field dictionary so those semantics are explicit. -/

/-- Python runtime values stored in the dumped state dictionary. -/
inductive PyVal where
  | str (s : String)
  | int (n : Int)
  | bool (b : Bool)
  | pynone
  | dt (t : Nat)
deriving DecidableEq, Repr

/-- Optional string to Python value. -/
def optStrVal : Option String → PyVal
  | none => .pynone
  | some s => .str s

/-- Translation of `TaskSyncState.model_dump()`: the declared fields of
the pydantic model, in declaration order. -/
def TaskSyncState.model_dump (st : TaskSyncState) : List (String × PyVal) :=
  [("todoist_task_id", .str st.todoist_task_id),
   ("capacities_object_id", optStrVal st.capacities_object_id),
   ("payload_hash", .str st.payload_hash),
   ("last_synced_at", .dt st.last_synced_at),
   ("sync_status", .str st.sync_status.toStr),
   ("error_message", optStrVal st.error_message),
   ("sync_source", optStrVal st.sync_source)]

/-- Python exceptions raised by the translated code. -/
inductive PyErr where
  | attributeError (attr : String)
  | typeError (msg : String)
  | valueError (msg : String)
  | httpStatusError (code : Nat)
deriving DecidableEq, Repr

/-- Error text used for `str(e)` when the worker records an error note. -/
def PyErr.toStr : PyErr → String
  | .attributeError a => "AttributeError: " ++ a
  | .typeError m => "TypeError: " ++ m
  | .valueError m => "ValueError: " ++ m
  | .httpStatusError c => "HTTPStatusError: " ++ toString c

instance {ε α : Type} [DecidableEq ε] [DecidableEq α] : DecidableEq (Except ε α) :=
  fun a b =>
    match a, b with
    | .ok x, .ok y =>
        if h : x = y then .isTrue (by rw [h])
        else .isFalse (by intro hc; cases hc; exact h rfl)
    | .error x, .error y =>
        if h : x = y then .isTrue (by rw [h])
        else .isFalse (by intro hc; cases hc; exact h rfl)
    | .ok _, .error _ => .isFalse (by intro hc; cases hc)
    | .error _, .ok _ => .isFalse (by intro hc; cases hc)

/-- Dynamic attribute read on a `TaskSyncState`: declared fields resolve
through the model dictionary, anything else raises `AttributeError`, as
pydantic v2 models do. -/
def taskStateGetAttr (st : TaskSyncState) (attr : String) : Except PyErr PyVal :=
  match st.model_dump.lookup attr with
  | some v => .ok v
  | none => .error (.attributeError attr)

/-! ## Utility functions (app/utils.py) -/

/-- Translation of `app/utils.py::has_capsync_label`: literal membership
of either tag spelling in the label list.  The function reads no
configuration. -/
def has_capsync_label (labels : List String) : Bool :=
  labels.contains "@capsync" || labels.contains "capsync"

/-- Translation of `app/utils.py::format_markdown_comments`: render each
comment with its timestamp and join them with a divider. -/
def format_markdown_comments (comments : List (String × String)) : String :=
  if comments = [] then ""
  else String.intercalate "\n\n---\n\n"
    (comments.map (fun c => "**Comment** · " ++ c.2 ++ "\n\n" ++ c.1))

/-- Translation of `app/utils.py::build_todoist_task_url`. -/
def build_todoist_task_url (task_id : String) : String :=
  "https://todoist.com/showTask?id=" ++ task_id

/-- Translation of `app/utils.py::build_todoist_project_url`. -/
def build_todoist_project_url (project_id : String) : String :=
  "https://todoist.com/app/project/" ++ project_id

/-- Match one label against the configured PARA areas: strip trailing
emoji, compare case insensitively (the matching loop of
`app/utils.py::extract_para_area`). -/
def matchParaArea (cfg : Settings) (label : String) : Option String :=
  let clean := stripTrailingNonAscii label
  cfg.para_area_labels.find? (fun area => pyUpper clean = pyUpper area)

/-- Translation of `app/utils.py::extract_para_area`: first label that
matches a configured PARA area, if the feature is enabled. -/
def extract_para_area (cfg : Settings) (labels : List String) : Option String :=
  if !cfg.enable_para_areas || labels = [] then none
  else labels.firstM (matchParaArea cfg)

/-- Modelled from the spec: `extract_para_areas`, imported by
`app/pubsub_worker.py` from `app/utils.py` but absent from the `utils.py`
in the tree (which only carries the singular `extract_para_area`).  Per
the spec, area resolution supports several area tags per task, so this is
the list valued form of the singular helper: every label that matches a
configured PARA area. -/
def extract_para_areas (cfg : Settings) (labels : List String) : List String :=
  if !cfg.enable_para_areas || labels = [] then []
  else labels.filterMap (matchParaArea cfg)

/-- Translation of `app/utils.py::extract_person_labels`: labels carrying
the person emoji, with the emoji removed and whitespace trimmed. -/
def extract_person_labels (cfg : Settings) (labels : List String) : List String :=
  if !cfg.enable_people_matching || labels = [] then []
  else labels.filterMap (fun label =>
    if containsSubstr label cfg.person_label_emoji then
      some (String.mk (pyStrip (pyReplace label cfg.person_label_emoji "").data))
    else none)

/-! ## Payload dictionaries (`model_dump()` of the payload models) -/

/-- Optional string as a JSON value. -/
def optStrJson : Option String → Json
  | none => .null
  | some s => .str s

/-- Translation of `NotionToDo.model_dump()`: the payload dictionary the
worker hashes for idempotency, fields in declaration order (the hash
serializer re-sorts them). -/
def NotionToDo.model_dump (t : NotionToDo) : Json :=
  .obj
    [("title", .str t.title),
     ("body", .str t.body),
     ("todoist_task_id", .str t.todoist_task_id),
     ("todoist_url", .str t.todoist_url),
     ("todoist_project_id", .str t.todoist_project_id),
     ("todoist_project_name", .str t.todoist_project_name),
     ("todoist_labels", .arr (t.todoist_labels.map Json.str)),
     ("priority", .int t.priority),
     ("due_date", optStrJson t.due_date),
     ("due_time", optStrJson t.due_time),
     ("due_timezone", optStrJson t.due_timezone),
     ("completed", .bool t.completed),
     ("completed_at", optStrJson t.completed_at),
     ("parent_id", optStrJson t.parent_id),
     ("section_id", optStrJson t.section_id),
     ("section_name", optStrJson t.section_name),
     ("comments_markdown", .str t.comments_markdown),
     ("created_at", .str t.created_at),
     ("updated_at", .str t.updated_at),
     ("last_synced_at", optStrJson t.last_synced_at),
     ("sync_status", .str t.sync_status),
     ("error_note", optStrJson t.error_note)]

/-- Translation of `NotionProject.model_dump()`. -/
def NotionProject.model_dump (p : NotionProject) : Json :=
  .obj
    [("todoist_project_id", .str p.todoist_project_id),
     ("name", .str p.name),
     ("url", .str p.url),
     ("is_shared", .bool p.is_shared),
     ("color", .str p.color),
     ("last_synced_at", optStrJson p.last_synced_at)]

/-! ## Task and project mapping (app/mapper.py)

The `mapper.py` present in the tree is a stale Capacities era variant: it
imports `CapacitiesToDo` and `CapacitiesProject`, names `app/models.py`
does not define, and reads task fields (`url`, `is_completed`,
`created_at`) that the v1 `TodoistTask` model does not carry, so the
module as shipped cannot be imported.  The Notion era mapper that
`app/pubsub_worker.py` imports (`map_task_to_todo`,
`map_project_to_notion`) is therefore missing from the tree and is
modelled from the spec below. -/

/-- Split a due value into date and time parts, as the mapper does by
splitting on the `T` separator when one is present. -/
def splitDueDate (d : String) : String × Option String :=
  if containsSubstr d "T" then
    (String.mk (d.data.takeWhile (fun c => c ≠ 'T')),
     some (String.mk ((d.data.dropWhile (fun c => c ≠ 'T')).drop 1)))
  else (d, none)

/-- Modelled from the spec: `map_task_to_todo` (the Notion era
`app/mapper.py` is missing from the tree, see above).  Composes the
canonical forward payload of section 4.C step 6 of the spec: title, body,
identifiers, source url, project name and id, labels, priority, split due
date and time with timezone, completion state, hierarchy, comments
rendered as markdown, the task timestamps, and status ok.  The payload is
a deterministic function of its inputs, as the fingerprint idempotency of
the spec requires. -/
def map_task_to_todo (task : TodoistTask) (project : TodoistProject)
    (comments : List TodoistComment) (section_name : Option String) : NotionToDo :=
  let dueParts := task.due.map (fun d => splitDueDate d.date)
  { title := task.content
    body := task.description
    todoist_task_id := task.id
    todoist_url := build_todoist_task_url task.id
    todoist_project_id := task.project_id
    todoist_project_name := project.name
    todoist_labels := task.labels
    priority := task.priority
    due_date := dueParts.map Prod.fst
    due_time := dueParts.bind Prod.snd
    due_timezone := task.due.bind (fun d => d.timezone)
    completed := task.checked
    completed_at := task.completed_at
    parent_id := task.parent_id
    section_id := task.section_id
    section_name := section_name
    comments_markdown := format_markdown_comments
      (comments.map (fun c => (c.content, (c.posted_at).getD "")))
    created_at := task.added_at
    updated_at := (task.updated_at).getD ""
    last_synced_at := none
    sync_status := "ok"
    error_note := none }

/-- Modelled from the spec: `map_project_to_notion` (missing from the
tree together with the Notion era mapper).  Mirrors the project fields
onto the Notion project model, with the source url built from the project
id. -/
def map_project_to_notion (project : TodoistProject) : NotionProject :=
  { todoist_project_id := project.id
    name := project.name
    url := build_todoist_project_url project.id
    is_shared := project.is_shared
    color := project.color
    last_synced_at := none }

/-! ## Todoist client (app/todoist_client.py) -/

/-- Translation of
`app/todoist_client.py::TodoistClient.get_active_tasks_with_label`: fetch
all tasks and keep those whose labels contain the given label or the
label with a leading at sign. -/
def get_active_tasks_with_label (all_tasks : List TodoistTask) (label : String) :
    List TodoistTask :=
  all_tasks.filter (fun task =>
    task.labels.contains label || task.labels.contains ("@" ++ label))

/-! ## Notion client property dictionaries (app/notion_client.py) -/

/-- Property values of the Notion page payloads. -/
inductive NotionPropValue where
  | titleV (s : String)
  | richText (s : String)
  | urlV (s : String)
  | selectV (s : String)
  | checkbox (b : Bool)
  | dateV (s : String)
  | multiSelect (names : List String)
  | relationV (ids : List String)
deriving DecidableEq, Repr

/-- Translation of the properties dictionary built by
`app/notion_client.py::NotionClient.update_todo_page` (lines 239 to 259):
Name, Priority and Completed are always set; Due Date, Labels, AREAS and
People are added only when the corresponding argument is truthy.  The
parameters mirror the Python signature
`(page_id, todo, area_page_id=None, people_page_ids=None)`. -/
def update_todo_page_props (todo : NotionToDo) (area_page_id : Option String)
    (people_page_ids : Option (List String)) : List (String × NotionPropValue) :=
  let base := [("Name", NotionPropValue.titleV todo.title),
               ("Priority", NotionPropValue.selectV ("P" ++ toString todo.priority)),
               ("Completed", NotionPropValue.checkbox todo.completed)]
  let base := if pyTruthyOptStr todo.due_date then
      base ++ [("Due Date", NotionPropValue.dateV ((todo.due_date).getD ""))]
    else base
  let base := if todo.todoist_labels ≠ [] then
      base ++ [("Labels", NotionPropValue.multiSelect todo.todoist_labels)]
    else base
  let base := if pyTruthyOptStr area_page_id then
      base ++ [("AREAS", NotionPropValue.relationV [(area_page_id).getD ""])]
    else base
  let base := if pyTruthyOptList people_page_ids then
      base ++ [("People", NotionPropValue.relationV ((people_page_ids).getD []))]
    else base
  base

/-- Translation of the properties dictionary built by
`app/notion_client.py::NotionClient.create_todo_page` (lines 119 to 146).
The worker passes its list of area page ids into the `area_page_id` slot,
so the area argument is list valued here, mirroring the call site. -/
def create_todo_page_props (todo : NotionToDo) (project_page_id : Option String)
    (area_page_ids : List String) (people_page_ids : List String) :
    List (String × NotionPropValue) :=
  let base := [("Name", NotionPropValue.titleV todo.title),
               ("Todoist Task ID", NotionPropValue.richText todo.todoist_task_id),
               ("Todoist URL", NotionPropValue.urlV todo.todoist_url),
               ("Priority", NotionPropValue.selectV ("P" ++ toString todo.priority)),
               ("Completed", NotionPropValue.checkbox todo.completed)]
  let base := if pyTruthyOptStr project_page_id then
      base ++ [("Project", NotionPropValue.relationV [(project_page_id).getD ""])]
    else base
  let base := if area_page_ids ≠ [] then
      base ++ [("AREAS", NotionPropValue.relationV area_page_ids)]
    else base
  let base := if people_page_ids ≠ [] then
      base ++ [("People", NotionPropValue.relationV people_page_ids)]
    else base
  let base := if pyTruthyOptStr todo.due_date then
      base ++ [("Due Date", NotionPropValue.dateV ((todo.due_date).getD ""))]
    else base
  let base := if todo.todoist_labels ≠ [] then
      base ++ [("Labels", NotionPropValue.multiSelect todo.todoist_labels)]
    else base
  base

/-- Translation of the properties dictionary built by
`app/notion_client.py::NotionClient.create_project_page`. -/
def create_project_page_props (project : NotionProject) (area_page_ids : List String) :
    List (String × NotionPropValue) :=
  let base := [("Name", NotionPropValue.titleV project.name),
               ("Todoist Project ID", NotionPropValue.richText project.todoist_project_id),
               ("Todoist URL", NotionPropValue.urlV project.url),
               ("Color", NotionPropValue.selectV project.color),
               ("Is Shared", NotionPropValue.checkbox project.is_shared)]
  if area_page_ids ≠ [] then
    base ++ [("AREAS", NotionPropValue.relationV area_page_ids)]
  else base

/-! ## The sync worker (app/pubsub_worker.py)

The worker is embedded as a pure state transformer.  The mutable state is
the Firestore content (`World`); every call to the Sink or the Source is
recorded in a trace.  The external adapters are read through an
environment of pure functions (`Env`): the environment is fixed for a
whole run, which models the absence of intervening external changes.  The
task fetch is fallible, mirroring the `httpx` client raising on error
statuses; the remaining adapter reads are modelled on their success
path.

Python truthiness convention: where the source tests an optional value
for truthiness (`if existing_state.capacities_object_id:`,
`if task.section_id:`, `if message.snapshot:`), the embedding represents
the value as an option and models the falsy values (`None`, and the empty
string or dictionary, which do not occur for identifiers and snapshots)
as `none`. -/

/-- Calls made to the Sink (Notion). -/
inductive SinkCall where
  | queryTaskPage (todoist_task_id : String)
  | queryProjectPage (todoist_project_id : String)
  | queryAreaPage (name : String)
  | createTaskPage (props : List (String × NotionPropValue))
  | createProjectPage (props : List (String × NotionPropValue))
  | createAreaPage (name : String)
  | updateTaskPage (page_id : String) (props : List (String × NotionPropValue))
  | archiveTaskPage (page_id : String) (succeeded : Bool)
  | appendTaskBlocks (page_id : String)
deriving DecidableEq, Repr

/-- Calls made to the Source (Todoist) that write. -/
inductive SourceCall where
  | updateTaskDescription (task_id : String) (description : String)
  | completeTask (task_id : String)
  | uncompleteTask (task_id : String)
  | updateTask (task_id : String) (content : Option String) (priority : Option Int)
      (due_date : Option String)
deriving DecidableEq, Repr

/-- Translation of the effect of
`app/notion_client.py::NotionClient.update_todo_page`: exactly one
`pages.update` call carrying the built properties.  Body blocks are not
touched on update (the source states this in the comment at lines 263 to
264) and no archived flag is passed. -/
def update_todo_page_calls (page_id : String) (todo : NotionToDo)
    (area_page_id : Option String) (people_page_ids : Option (List String)) :
    List SinkCall :=
  [.updateTaskPage page_id (update_todo_page_props todo area_page_id people_page_ids)]

/-- A Sink page write: a page create, a property update or an archive
(`pages.create` or `pages.update`); block children appends are not page
writes. -/
def SinkCall.isTaskPageWrite : SinkCall → Bool
  | .createTaskPage _ => true
  | .updateTaskPage _ _ => true
  | .archiveTaskPage _ _ => true
  | _ => false

/-- Count the Sink task page writes in a trace. -/
def countTaskPageWrites (calls : List SinkCall) : Nat :=
  (calls.filter SinkCall.isTaskPageWrite).length

/-- The Firestore content: task and project sync records keyed by the
source ids. -/
structure World where
  taskStates : List (String × TaskSyncState)
  projectStates : List (String × ProjectSyncState)
deriving DecidableEq, Repr

/-- Write through of `save_task_state`: a full document overwrite for the
given key. -/
def World.putTask (w : World) (st : TaskSyncState) : World :=
  { w with taskStates := (st.todoist_task_id, st) :: w.taskStates }

/-- Write through of `save_project_state`. -/
def World.putProject (w : World) (st : ProjectSyncState) : World :=
  { w with projectStates := (st.todoist_project_id, st) :: w.projectStates }

/-- Read of `get_task_state`. -/
def World.getTask (w : World) (task_id : String) : Option TaskSyncState :=
  w.taskStates.lookup task_id

/-- Read of `get_project_state`. -/
def World.getProject (w : World) (project_id : String) : Option ProjectSyncState :=
  w.projectStates.lookup project_id

/-- The external adapters, as pure read functions fixed for a run.  The
Notion query results and fresh page identifiers come from here; the task
fetch can fail like the underlying HTTP client. -/
structure Env where
  fetchTask : String → Except PyErr TodoistTask
  fetchProject : String → TodoistProject
  fetchComments : String → List TodoistComment
  fetchSection : String → TodoistSection
  allTasks : List TodoistTask
  findTodoPage : String → Option String
  findProjectPage : String → Option String
  findAreaPage : String → Option String
  newTaskPageId : String
  newProjectPageId : String
  newAreaPageId : String → String
  matchPeopleIds : List String → List String
  archivePageFails : Bool
  now : Nat

/-- Translation of `app/store.py::FirestoreStore.mark_task_archived`: if a
record exists, set its status to archived and refresh the timestamp. -/
def markTaskArchived (env : Env) (w : World) (task_id : String) : World :=
  match w.getTask task_id with
  | none => w
  | some st =>
      w.putTask { st with sync_status := .archived, last_synced_at := env.now }

/-- Translation of `app/store.py::FirestoreStore.mark_task_error`: if a
record exists, set its status to error with the note and refresh the
timestamp; without a record nothing is written. -/
def markTaskError (env : Env) (w : World) (task_id : String) (note : String) : World :=
  match w.getTask task_id with
  | none => w
  | some st =>
      w.putTask { st with sync_status := .error, error_message := some note,
                          last_synced_at := env.now }

/-- Translation of
`app/notion_client.py::NotionClient.ensure_area_exists`: nothing happens
when no areas database is configured; otherwise find by name or create. -/
def ensureAreaExists (cfg : Settings) (env : Env) (name : String) :
    Option String × List SinkCall :=
  if cfg.notion_areas_database_id = "" then (none, [])
  else
    match env.findAreaPage name with
    | some pid => (some pid, [.queryAreaPage name])
    | none => (some (env.newAreaPageId name), [.queryAreaPage name, .createAreaPage name])

/-- Resolve a list of area names to page ids, keeping successful lookups,
as the loops over `ensure_area_exists` in the worker do. -/
def ensureAreas (cfg : Settings) (env : Env) : List String → List String × List SinkCall
  | [] => ([], [])
  | name :: rest =>
      let r := ensureAreaExists cfg env name
      let rs := ensureAreas cfg env rest
      ((r.1).toList ++ rs.1, r.2 ++ rs.2)

/-- Translation of
`app/pubsub_worker.py::SyncWorker._get_project_areas`: aggregate the PARA
areas of every capsync labelled task of the project and resolve them to
page ids.  Python collects the names in a set; the embedding dedupes in
first occurrence order. -/
def getProjectAreas (cfg : Settings) (env : Env) (project_id : String) :
    List String × List SinkCall :=
  let project_tasks := (get_active_tasks_with_label env.allTasks "capsync").filter
    (fun t => t.project_id = project_id)
  let names := (project_tasks.flatMap (fun t => extract_para_areas cfg t.labels)).dedup
  ensureAreas cfg env names

/-- Translation of
`app/pubsub_worker.py::SyncWorker._ensure_project_exists`.  The Inbox
project is filtered before any store or Sink access and yields no
mapping.  When the page exists in Notion without a stored state, the
metadata refresh call raises `AttributeError` (the shipped `NotionClient`
has no `update_project_page` method); the surrounding `try` block treats
that as a non fatal failure, so the embedding proceeds with the found
page.  A fresh project page is created with areas aggregated from the
project tasks. -/
def ensureProjectExists (cfg : Settings) (env : Env) (w : World)
    (project : NotionProject) : World × List SinkCall × Option String :=
  if project.name = "Inbox" then (w, [], none)
  else
    let pid := project.todoist_project_id
    match (w.getProject pid).bind (fun s => s.capacities_object_id) with
    | some page_id => (w, [], some page_id)
    | none =>
        match env.findProjectPage pid with
        | some page_id =>
            let st : ProjectSyncState :=
              { todoist_project_id := pid, capacities_object_id := some page_id,
                payload_hash := compute_payload_hash project.model_dump,
                last_synced_at := env.now }
            (w.putProject st, [.queryProjectPage pid], some page_id)
        | none =>
            let areas := getProjectAreas cfg env pid
            let page_id := env.newProjectPageId
            let st : ProjectSyncState :=
              { todoist_project_id := pid, capacities_object_id := some page_id,
                payload_hash := compute_payload_hash project.model_dump,
                last_synced_at := env.now }
            (w.putProject st,
             [.queryProjectPage pid] ++ areas.2 ++
               [.createProjectPage (create_project_page_props project areas.1)],
             some page_id)

/-- Translation of
`app/pubsub_worker.py::SyncWorker._add_notion_backlink`: skip when the
description already links to the Notion host, otherwise append the task
and project page links to the description of the source task. -/
def addNotionBacklink (task : TodoistTask) (task_page_id : String)
    (project_page_id : Option String) : List SourceCall :=
  if containsSubstr task.description "notion.so" then []
  else
    let task_url := "https://notion.so/" ++ pyReplace task_page_id "-" ""
    let separator := if task.description ≠ "" then "\n\n---\n" else ""
    let d₀ := task.description ++ separator ++ "📝 View Task in Notion: " ++ task_url ++ "\n"
    let d₁ :=
      match project_page_id with
      | some ppid => d₀ ++ "📁 View Project in Notion: " ++
          ("https://notion.so/" ++ pyReplace ppid "-" "")
      | none => d₀
    [.updateTaskDescription task.id d₁]

/-- Translation of `app/notion_client.py::NotionClient.match_people` as
called from the worker: no lookup when no people database is configured
or no names were extracted; the fuzzy directory match itself is read from
the environment. -/
def matchPeople (cfg : Settings) (env : Env) (names : List String) : List String :=
  if cfg.notion_people_database_id = "" || names = [] then []
  else env.matchPeopleIds names

/-- The eligibility gate of `_handle_upsert` (lines 100 to 121): decide
between proceeding with the sync, running the archive path, and skipping
silently. -/
inductive GateDecision where
  | proceed
  | archiveThenReturn
  | skip
deriving DecidableEq, Repr

/-- Translation of the gate conditionals: a task with the capsync label
proceeds; without it, a completed task with a prior record proceeds, a
task with a prior record is archived, and anything else is skipped. -/
def eligibilityGate (hasLabel checked hasState : Bool) : GateDecision :=
  if hasLabel then .proceed
  else if checked && hasState then .proceed
  else if hasState then .archiveThenReturn
  else .skip

/-- Translation of `app/pubsub_worker.py::SyncWorker._handle_archive`:
without a record or a recorded page id nothing happens; otherwise the
Sink archive call is attempted (failure is caught and logged, non fatal)
and the record is marked archived either way. -/
def handleArchive (env : Env) (w : World) (task_id : String) :
    World × List SinkCall × List SourceCall :=
  match (w.getTask task_id).bind (fun st => st.capacities_object_id) with
  | none => (w, [], [])
  | some page_id =>
      (markTaskArchived env w task_id,
       [.archiveTaskPage page_id (!env.archivePageFails)], [])

/-- The forward payload hash of a task in a fixed environment: the hash of
the composed payload, exactly as `_handle_upsert` computes it (comments
are fetched under the message task id). -/
def currentPayloadHash (env : Env) (task_id : String) (task : TodoistTask) : String :=
  let project := env.fetchProject task.project_id
  let comments := env.fetchComments task_id
  let section_name := task.section_id.map (fun sid => (env.fetchSection sid).name)
  compute_payload_hash (map_task_to_todo task project comments section_name).model_dump

/-- The write phase of `_handle_upsert` (lines 197 to 303): resolve the
project (aborting without a Sink write when the resolver returns no
mapping), resolve areas and people, locate an existing page (stored id,
then Sink query, then a store re-read), then write.  Locating an existing
page leads to the call
`update_todo_page(page_id, todo, area_page_ids, people_page_ids,
project_page_id=...)`, which raises `TypeError`: the shipped
`NotionClient.update_todo_page` accepts no `project_page_id` keyword.
Creating a fresh page succeeds, persists the new record and optionally
appends the source backlink. -/
def upsertWrite (cfg : Settings) (env : Env) (w : World) (task_id : String)
    (task : TodoistTask) (todo : NotionToDo) (notion_project : NotionProject)
    (payload_hash : String) (existing_state : Option TaskSyncState) (sync_source : String) :
    Except PyErr (World × List SinkCall × List SourceCall) :=
  let pr := ensureProjectExists cfg env w notion_project
  match pr.2.2 with
  | none => .ok (pr.1, pr.2.1, [])
  | some project_page_id =>
      let area_names := extract_para_areas cfg task.labels
      let areas := ensureAreas cfg env area_names
      let person_names := extract_person_labels cfg task.labels
      let people_page_ids := matchPeople cfg env person_names
      let located :=
        match existing_state.bind (fun st => st.capacities_object_id) with
        | some page_id => (some page_id, ([] : List SinkCall))
        | none =>
            match env.findTodoPage task_id with
            | some page_id => (some page_id, [SinkCall.queryTaskPage task_id])
            | none =>
                match ((pr.1).getTask task_id).bind (fun st => st.capacities_object_id) with
                | some page_id => (some page_id, [SinkCall.queryTaskPage task_id])
                | none => (none, [SinkCall.queryTaskPage task_id])
      match located.1 with
      | some _page_id =>
          .error (.typeError "update_todo_page() got an unexpected keyword argument project_page_id")
      | none =>
          let page_id := env.newTaskPageId
          let create_calls :=
            [SinkCall.createTaskPage
               (create_todo_page_props todo (some project_page_id) areas.1 people_page_ids)] ++
            (if todo.body ≠ "" || todo.comments_markdown ≠ "" then
               [SinkCall.appendTaskBlocks page_id] else [])
          let new_state : TaskSyncState :=
            { todoist_task_id := task_id, capacities_object_id := some page_id,
              payload_hash := payload_hash, last_synced_at := env.now,
              sync_status := .ok, error_message := none, sync_source := some sync_source }
          let w₂ := (pr.1).putTask new_state
          let src_calls :=
            if cfg.add_notion_backlink then
              addNotionBacklink task page_id (some project_page_id)
            else []
          .ok (w₂, pr.2.1 ++ areas.2 ++ located.2 ++ create_calls, src_calls)

/-- The eligible continuation of `_handle_upsert` (lines 169 onward):
fetch the related project, comments and section, compose the forward
payload, and return before any Sink access when a prior record carries an
equal forward fingerprint; otherwise enter the write phase. -/
def upsertEligible (cfg : Settings) (env : Env) (w : World) (task_id : String)
    (task : TodoistTask) (existing_state : Option TaskSyncState) (sync_source : String) :
    Except PyErr (World × List SinkCall × List SourceCall) :=
  let project := env.fetchProject task.project_id
  let comments := env.fetchComments task_id
  let section_name := task.section_id.map (fun sid => (env.fetchSection sid).name)
  let todo := map_task_to_todo task project comments section_name
  let notion_project := map_project_to_notion project
  let payload_hash := compute_payload_hash todo.model_dump
  match existing_state with
  | some st =>
      if st.payload_hash = payload_hash then .ok (w, [], [])
      else upsertWrite cfg env w task_id task todo notion_project payload_hash
        existing_state sync_source
  | none =>
      upsertWrite cfg env w task_id task todo notion_project payload_hash
        existing_state sync_source

/-- Translation of `app/pubsub_worker.py::SyncWorker._handle_upsert`.
The task comes from the snapshot when one is attached, otherwise from a
live fetch.  The area inheritance block for brand new webhook tasks is a
net no-op: the shipped `TodoistClient` has no `get_parent_project`
attribute, so the block raises `AttributeError` which its own `except`
swallows.  After the gate the eligible continuation runs. -/
def handleUpsert (cfg : Settings) (env : Env) (w : World) (msg : PubSubMessage)
    (sync_source : String) : Except PyErr (World × List SinkCall × List SourceCall) := do
  let task ←
    match msg.snapshot with
    | some t => Except.ok t
    | none => env.fetchTask msg.todoist_task_id
  let existing_state := w.getTask msg.todoist_task_id
  match eligibilityGate (has_capsync_label task.labels) task.checked existing_state.isSome with
  | .archiveThenReturn => return handleArchive env w msg.todoist_task_id
  | .skip => return (w, [], [])
  | .proceed =>
      upsertEligible cfg env w msg.todoist_task_id task existing_state sync_source

/-- The action dispatch of `process_message`, before its catch all; a job
whose per task state machine raises is one where this result is an
error. -/
def workerActionResult (cfg : Settings) (env : Env) (w : World) (msg : PubSubMessage)
    (sync_source : String) : Except PyErr (World × List SinkCall × List SourceCall) :=
  match msg.action with
  | .UPSERT => handleUpsert cfg env w msg sync_source
  | .ARCHIVE => .ok (handleArchive env w msg.todoist_task_id)

/-- Translation of `app/pubsub_worker.py::SyncWorker.process_message`:
dispatch on the action; any exception of the handlers is caught here, the
record is marked errored (when one exists), and the method returns
normally — the exception is not re-raised. -/
def processMessage (cfg : Settings) (env : Env) (w : World) (msg : PubSubMessage)
    (sync_source : String) : World × List SinkCall × List SourceCall :=
  match workerActionResult cfg env w msg sync_source with
  | .ok out => out
  | .error e => (markTaskError env w msg.todoist_task_id e.toStr, [], [])

/-- Run the UPSERT worker n times in a fixed environment, accumulating the
call traces: the repeated delivery scenario of the idempotency claim. -/
def runUpsertN (cfg : Settings) (env : Env) (msg : PubSubMessage) :
    Nat → World → World × List SinkCall × List SourceCall
  | 0, w => (w, [], [])
  | n + 1, w =>
      let r₁ := processMessage cfg env w msg "webhook"
      let r := runUpsertN cfg env msg n r₁.1
      (r.1, r₁.2.1 ++ r.2.1, r₁.2.2 ++ r.2.2)

/-! ## The queue push endpoint (app/main.py::process_pubsub) -/

/-- The decoded shapes a pushed queue message can take at the endpoint. -/
inductive PubSubBody where
  | missingMessageField
  | undecodable
  | valid (msg : PubSubMessage)
deriving DecidableEq, Repr

/-- HTTP outcome of the endpoint. -/
inductive HttpOutcome where
  | success (task_id : String) (action : String)
  | clientError400
  | serverError500
deriving DecidableEq, Repr

/-- Translation of `app/main.py::process_pubsub` (lines 230 to 300): a
body without a message field is rejected with 400 (no retry); a body that
fails to decode raises and is answered with 500 (retried); a decoded
message is handed to `SyncWorker.process_message`, which never raises, so
the endpoint then always reports success. -/
def processPubsub (cfg : Settings) (env : Env) (w : World) (body : PubSubBody) :
    HttpOutcome × World :=
  match body with
  | .missingMessageField => (.clientError400, w)
  | .undecodable => (.serverError500, w)
  | .valid msg =>
      let r := processMessage cfg env w msg "webhook"
      (.success msg.todoist_task_id msg.action.toStr, r.1)

/-! ## Reverse mapper (app/reverse_mapper.py) -/

/-- A Notion task page as the reverse sweep reads it: the page identity
plus the property fields that `extract_notion_task_properties` walks in
the raw property dictionary (title text list, priority select, due date
start, completed checkbox, task id rich text list, project relation
list). -/
structure NotionPage where
  id : String
  last_edited_time : String
  archived : Bool
  name_title : List String
  priority_select : Option String
  due_date_start : Option String
  completed_checkbox : Bool
  todoist_id_text : List String
  project_relation : List String
deriving DecidableEq, Repr

/-- The extracted sync relevant properties
(`app/reverse_mapper.py::extract_notion_task_properties` return value). -/
structure NotionTaskProps where
  title : String
  priority : Int
  due_date : Option String
  completed : Bool
  todoist_task_id : String
  notion_page_id : String
  last_edited_time : String
  project_notion_id : Option String
deriving DecidableEq, Repr

/-- Priority parse of the select name: strip every `P` and parse the
rest, falling back to 1 on a parse failure, as
`int(priority_prop["name"].replace("P", ""))` under its `except` does. -/
def parsePrioritySelect (s : Option String) : Int :=
  match s with
  | none => 1
  | some name =>
      if name = "" then 1
      else
        match (pyReplace name "P" "").toInt? with
        | some n => n
        | none => 1

/-- Translation of
`app/reverse_mapper.py::extract_notion_task_properties`. -/
def extract_notion_task_properties (page : NotionPage) : NotionTaskProps :=
  { title := (page.name_title.head?).getD ""
    priority := parsePrioritySelect page.priority_select
    due_date := match page.due_date_start with
      | some d => if d ≠ "" then some d else none
      | none => none
    completed := page.completed_checkbox
    todoist_task_id := (page.todoist_id_text.head?).getD ""
    notion_page_id := page.id
    last_edited_time := page.last_edited_time
    project_notion_id := page.project_relation.head? }

/-- Python `json.dumps` boolean dump. -/
def pyJsonBool (b : Bool) : String :=
  if b then "true" else "false"

/-- Translation of
`app/reverse_mapper.py::compute_notion_properties_hash`: hash of the four
bidirectionally synced fields, serialized by `json.dumps` with sorted
keys (alphabetically: completed, due_date, priority, title) and the
default separators (a comma and a colon each followed by one space). -/
def compute_notion_properties_hash (p : NotionTaskProps) : String :=
  let serialized :=
    "\x7b\"completed\": " ++ pyJsonBool p.completed ++
    ", \"due_date\": " ++ (match p.due_date with
      | none => "null"
      | some d => escString d) ++
    ", \"priority\": " ++ toString p.priority ++
    ", \"title\": " ++ escString p.title ++ "\x7d"
  sha256Hex (strBytes serialized)

/-- The changed field set computed by
`app/reverse_mapper.py::notion_props_differ`: for each field, `some v`
means the Notion value `v` differs from the Todoist value and is to be
pushed. -/
structure PropChanges where
  title : Option String
  priority : Option Int
  due_date : Option (Option String)
  completed : Option Bool
deriving DecidableEq, Repr

/-- True when no field changed. -/
def PropChanges.isEmpty (c : PropChanges) : Bool :=
  c.title = none && c.priority = none && c.due_date = none && c.completed = none

/-- Translation of `app/reverse_mapper.py::notion_props_differ`.  The due
date entry is recorded only when the values differ and at least one side
is truthy (both sides falsy is not a change). -/
def notion_props_differ (p : NotionTaskProps) (todoist_title : String)
    (todoist_priority : Int) (todoist_due_date : Option String)
    (todoist_completed : Bool) : PropChanges :=
  { title := if p.title ≠ todoist_title then some p.title else none
    priority := if p.priority ≠ todoist_priority then some p.priority else none
    due_date :=
      if p.due_date ≠ todoist_due_date then
        if pyTruthyOptStr p.due_date || pyTruthyOptStr todoist_due_date then
          some p.due_date
        else none
      else none
    completed := if p.completed ≠ todoist_completed then some p.completed else none }

/-! ## The reverse sweep page body
(app/handlers.py::ReconcileHandler._sync_notion_to_todoist, lines 463 to
572)

Each edited page is processed inside a `try` whose `except` logs and
moves to the next page.  The body extracts the properties, skips pages
without a task id, loads the record, and then evaluates
`state.notion_payload_hash` — an attribute that `TaskSyncState` does not
declare, so the read raises `AttributeError` on every page that reaches
it; the outer `except` swallows it.  The remainder of the body (the diff
and the Source writes) is transcribed faithfully below even though the
attribute read keeps it unreachable. -/

/-- Outcome of one page of the reverse sweep. -/
inductive PageOutcome where
  | skipped
  | synced
  | errorCaught (e : PyErr)
deriving DecidableEq, Repr

/-- Dynamic attribute write on a `TaskSyncState`, as
`state.notion_payload_hash = current_hash` performs: pydantic v2 rejects
assignment to undeclared fields with `ValueError`. -/
def taskStateSetAttr (st : TaskSyncState) (attr : String) (v : PyVal) :
    Except PyErr TaskSyncState :=
  match attr, v with
  | "payload_hash", .str s => .ok { st with payload_hash := s }
  | "last_synced_at", .dt t => .ok { st with last_synced_at := t }
  | "sync_source", .str s => .ok { st with sync_source := some s }
  | _, _ => .error (.valueError ("object has no field " ++ attr))

/-- The body of the per page `try` block of `_sync_notion_to_todoist`,
before its catch all. -/
def syncNotionPageInner (env : Env) (w : World) (page : NotionPage) :
    Except PyErr (World × List SourceCall × PageOutcome) := do
  let props := extract_notion_task_properties page
  let task_id := props.todoist_task_id
  if task_id = "" then return (w, [], .skipped)
  let current_hash := compute_notion_properties_hash props
  match w.getTask task_id with
  | none => return (w, [], .skipped)
  | some state => do
      let stored ← taskStateGetAttr state "notion_payload_hash"
      if stored = .str current_hash then return (w, [], .skipped)
      match env.fetchTask task_id with
      | .error _ => return (w, [], .skipped)
      | .ok todoist_task => do
          let todoist_due := todoist_task.due.map (fun d => d.date)
          let changes := notion_props_differ props todoist_task.content
            todoist_task.priority todoist_due todoist_task.checked
          if changes.isEmpty then do
            let state' ← taskStateSetAttr state "notion_payload_hash" (.str current_hash)
            return (w.putTask state', [], .skipped)
          else do
            let completion_calls :=
              match changes.completed with
              | some true => [SourceCall.completeTask task_id]
              | some false => [SourceCall.uncompleteTask task_id]
              | none => []
            let prop_calls :=
              if changes.title = none ∧ changes.priority = none ∧ changes.due_date = none then
                ([] : List SourceCall)
              else
                [SourceCall.updateTask task_id changes.title changes.priority
                  ((changes.due_date).getD none)]
            let updated_task ← env.fetchTask task_id
            let project := env.fetchProject updated_task.project_id
            let comments := env.fetchComments updated_task.id
            let todo := map_task_to_todo updated_task project comments none
            let new_payload_hash := compute_payload_hash todo.model_dump
            let state₁ ← taskStateSetAttr state "payload_hash" (.str new_payload_hash)
            let state₂ ← taskStateSetAttr state₁ "notion_payload_hash" (.str current_hash)
            let state₃ ← taskStateSetAttr state₂ "last_synced_at" (.dt env.now)
            let state₄ ← taskStateSetAttr state₃ "sync_source" (.str "notion-to-todoist")
            return (w.putTask state₄, completion_calls ++ prop_calls, .synced)

/-- One page of the reverse sweep with its catch all: an exception leaves
the store untouched, performs no Source write and moves on. -/
def syncNotionPage (env : Env) (w : World) (page : NotionPage) :
    World × List SourceCall × PageOutcome :=
  match syncNotionPageInner env w page with
  | .ok out => out
  | .error e => (w, [], .errorCaught e)

/-! ## Claim theorems -/

/-- C10: sync tag eligibility is decided by literal membership of the
string capsync or the string at-capsync in the label list, and the label
filtered task fetch matches a task exactly when the given label or the
label prefixed with an at sign is among its labels.  Neither function
reads any configuration: they take only the labels, the task list and the
label, so no setting can alter the recognized tag strings. -/
theorem C10_sync_tag_literal_membership :
    (∀ labels : List String,
      has_capsync_label labels = true ↔ ("capsync" ∈ labels ∨ "@capsync" ∈ labels))
  ∧ (∀ (all_tasks : List TodoistTask) (label : String) (t : TodoistTask),
      t ∈ get_active_tasks_with_label all_tasks label ↔
        t ∈ all_tasks ∧ (label ∈ t.labels ∨ ("@" ++ label) ∈ t.labels)) := by
  constructor
  · intro labels
    simp [has_capsync_label, or_comm]
  · intro all_tasks label t
    simp [get_active_tasks_with_label, List.mem_filter]

/-- C9: an update of an existing Sink task page writes the Name, Priority
and Completed properties unconditionally; the Due Date, Labels, AREAS and
People properties are part of the update request exactly when the new
value is truthy (non empty), so an empty due date or label set on the
Source side leaves the corresponding Sink property untouched; no property
outside these seven is ever written, and the update performs a single
pages.update call with no block modification. -/
theorem C9_update_page_frame (page_id : String) (todo : NotionToDo)
    (area_page_id : Option String) (people_page_ids : Option (List String)) :
    ((((update_todo_page_props todo area_page_id people_page_ids).map Prod.fst).contains "Name"
      && ((update_todo_page_props todo area_page_id people_page_ids).map Prod.fst).contains "Priority"
      && ((update_todo_page_props todo area_page_id people_page_ids).map Prod.fst).contains "Completed") = true)
  ∧ ((update_todo_page_props todo area_page_id people_page_ids).map Prod.fst).contains "Due Date"
      = pyTruthyOptStr todo.due_date
  ∧ ((update_todo_page_props todo area_page_id people_page_ids).map Prod.fst).contains "Labels"
      = !todo.todoist_labels.isEmpty
  ∧ ((update_todo_page_props todo area_page_id people_page_ids).map Prod.fst).contains "AREAS"
      = pyTruthyOptStr area_page_id
  ∧ ((update_todo_page_props todo area_page_id people_page_ids).map Prod.fst).contains "People"
      = pyTruthyOptList people_page_ids
  ∧ (((update_todo_page_props todo area_page_id people_page_ids).map Prod.fst).all
      (fun k => (["Name", "Priority", "Completed", "Due Date", "Labels", "AREAS",
        "People"].contains k)) = true)
  ∧ update_todo_page_calls page_id todo area_page_id people_page_ids =
      [.updateTaskPage page_id (update_todo_page_props todo area_page_id people_page_ids)] := by
  refine ⟨?_, ?_, ?_, ?_, ?_, ?_, rfl⟩ <;>
    simp only [update_todo_page_props] <;>
    cases hd : pyTruthyOptStr todo.due_date <;>
    cases hl : todo.todoist_labels.isEmpty <;>
    cases ha : pyTruthyOptStr area_page_id <;>
    cases hp : pyTruthyOptList people_page_ids <;>
    simp_all [List.isEmpty_iff]

/-- Unfolding of the upsert handler when the message carries a parsed
snapshot: the control flow is the eligibility gate applied to the
snapshot task. -/
theorem handleUpsert_snapshot (cfg : Settings) (env : Env) (w : World)
    (msg : PubSubMessage) (task : TodoistTask) (src : String)
    (hsnap : msg.snapshot = some task) :
    handleUpsert cfg env w msg src =
      (match eligibilityGate (has_capsync_label task.labels) task.checked
          (w.getTask msg.todoist_task_id).isSome with
       | .archiveThenReturn => .ok (handleArchive env w msg.todoist_task_id)
       | .skip => .ok (w, [], [])
       | .proceed =>
           upsertEligible cfg env w msg.todoist_task_id task
             (w.getTask msg.todoist_task_id) src) := by
  unfold handleUpsert
  rw [hsnap]
  rfl

/-- C5: when an UPSERT is processed for a task lacking the sync tag,
then (a) a completed task with a prior record still proceeds into the
sync continuation, (b) otherwise a task with a prior record runs the
archive path and the job returns its result, and (c) a task with no
prior record returns silently with the store unchanged, no Sink call and
no Source call. -/
theorem C5_eligibility_gate (cfg : Settings) (env : Env) (w : World)
    (msg : PubSubMessage) (task : TodoistTask) (src : String)
    (hsnap : msg.snapshot = some task)
    (hlabel : has_capsync_label task.labels = false) :
    (task.checked = true → (w.getTask msg.todoist_task_id).isSome = true →
       handleUpsert cfg env w msg src =
         upsertEligible cfg env w msg.todoist_task_id task
           (w.getTask msg.todoist_task_id) src)
  ∧ (task.checked = false → (w.getTask msg.todoist_task_id).isSome = true →
       handleUpsert cfg env w msg src = .ok (handleArchive env w msg.todoist_task_id))
  ∧ (w.getTask msg.todoist_task_id = none →
       handleUpsert cfg env w msg src = .ok (w, [], [])) := by
  rw [handleUpsert_snapshot cfg env w msg task src hsnap]
  refine ⟨?_, ?_, ?_⟩
  · intro h1 h2
    simp [eligibilityGate, hlabel, h1, h2]
  · intro h1 h2
    simp [eligibilityGate, hlabel, h1, h2]
  · intro h1
    simp [eligibilityGate, hlabel, h1]

/-- Witness for C5: on a concrete unlabeled, uncompleted task with a
prior record, the upsert job runs the archive path. -/
def c5Task : TodoistTask :=
  { id := "T2", content := "Old task", description := "", project_id := "P1",
    section_id := none, parent_id := none, labels := ["work"], priority := 1,
    due := none, added_at := "2025-01-01T00:00:00Z", checked := false,
    completed_at := none, updated_at := none }

/-- A prior sync record for the C5 witness task. -/
def c5State : TaskSyncState :=
  { todoist_task_id := "T2", capacities_object_id := some "page-2",
    payload_hash := "stale", last_synced_at := 0, sync_status := .ok,
    error_message := none, sync_source := some "webhook" }

/-- A concrete happy path environment shared by several witnesses. -/
def baseEnv : Env :=
  { fetchTask := fun _ => .error (.httpStatusError 404)
    fetchProject := fun pid =>
      { id := pid, name := "Work", color := "blue", is_shared := false, is_archived := false }
    fetchComments := fun _ => []
    fetchSection := fun sid => { id := sid, name := "Section", project_id := "P1" }
    allTasks := []
    findTodoPage := fun _ => none
    findProjectPage := fun _ => none
    findAreaPage := fun _ => none
    newTaskPageId := "page-new"
    newProjectPageId := "proj-page-new"
    newAreaPageId := fun n => "area-" ++ n
    matchPeopleIds := fun _ => []
    archivePageFails := false
    now := 7 }

theorem C5_eligibility_gate_witness :
    ({ action := .UPSERT, todoist_task_id := "T2", snapshot := some c5Task
       : PubSubMessage }.snapshot = some c5Task)
  ∧ has_capsync_label c5Task.labels = false
  ∧ handleUpsert defaultSettings baseEnv
      { taskStates := [("T2", c5State)], projectStates := [] }
      { action := .UPSERT, todoist_task_id := "T2", snapshot := some c5Task } "webhook" =
      .ok (handleArchive baseEnv
        { taskStates := [("T2", c5State)], projectStates := [] } "T2") :=
  ⟨rfl, by decide,
   (C5_eligibility_gate defaultSettings baseEnv
      { taskStates := [("T2", c5State)], projectStates := [] }
      { action := .UPSERT, todoist_task_id := "T2", snapshot := some c5Task }
      c5Task "webhook" rfl (by decide)).2.1 rfl rfl⟩

/-- C6: an ARCHIVE job without a record, or whose record carries no Sink
page id, returns without any effect; otherwise the Sink archive call is
attempted on the recorded page (the call sets the completion property
and the archived flag) and, whether or not that call succeeds, the
record transitions to status archived with a refreshed sync
timestamp. -/
theorem C6_archive_path (env : Env) (w : World) (task_id : String) :
    ((w.getTask task_id).bind (fun st => st.capacities_object_id) = none →
       handleArchive env w task_id = (w, [], []))
  ∧ (∀ st page_id, w.getTask task_id = some st →
       st.capacities_object_id = some page_id →
       handleArchive env w task_id =
         (w.putTask { st with sync_status := .archived, last_synced_at := env.now },
          [.archiveTaskPage page_id (!env.archivePageFails)], [])) := by
  constructor
  · intro h
    unfold handleArchive
    rw [h]
  · intro st page_id hst hpid
    unfold handleArchive markTaskArchived
    rw [hst]
    simp [hpid]

/-- Witness for C6: a concrete archive run with a failing Sink archive
call still transitions the record to archived. -/
def c6Env : Env := { baseEnv with archivePageFails := true }

theorem C6_archive_path_witness :
    ({ taskStates := [("T2", c5State)], projectStates := [] : World }.getTask "T2"
        = some c5State)
  ∧ c5State.capacities_object_id = some "page-2"
  ∧ handleArchive c6Env { taskStates := [("T2", c5State)], projectStates := [] } "T2" =
      ({ taskStates := [("T2", c5State)], projectStates := [] : World }.putTask
         { c5State with sync_status := .archived, last_synced_at := c6Env.now },
       [.archiveTaskPage "page-2" (!c6Env.archivePageFails)], []) :=
  ⟨rfl, rfl,
   (C6_archive_path c6Env { taskStates := [("T2", c5State)], projectStates := [] } "T2").2
     c5State "page-2" rfl rfl⟩

/-- C7 (amended): within the UPSERT sync path, a task whose project
resolves to the Inbox project causes no Sink call at all and no record
write — whenever the gate passes, the whole upsert returns with the
store unchanged and empty call traces — and the project resolver
returns no mapping for the Inbox project without touching the store or
the Sink.  (The ARCHIVE path, which never consults the project, can
still archive a previously created page; see the counterexample.) -/
theorem C7_inbox_exclusion_upsert (cfg : Settings) (env : Env) (w : World)
    (msg : PubSubMessage) (task : TodoistTask) (src : String)
    (hsnap : msg.snapshot = some task)
    (hinbox : (env.fetchProject task.project_id).name = "Inbox")
    (hgate : eligibilityGate (has_capsync_label task.labels) task.checked
        (w.getTask msg.todoist_task_id).isSome = .proceed) :
    handleUpsert cfg env w msg src = .ok (w, [], [])
  ∧ (∀ (w' : World) (p : NotionProject), p.name = "Inbox" →
       ensureProjectExists cfg env w' p = (w', [], none)) := by
  constructor
  · rw [handleUpsert_snapshot cfg env w msg task src hsnap, hgate]
    show upsertEligible cfg env w msg.todoist_task_id task
      (w.getTask msg.todoist_task_id) src = .ok (w, [], [])
    have hproj : ensureProjectExists cfg env w
        (map_project_to_notion (env.fetchProject task.project_id)) = (w, [], none) := by
      unfold ensureProjectExists
      simp [map_project_to_notion, hinbox]
    cases hst : w.getTask msg.todoist_task_id with
    | none => simp only [upsertEligible, upsertWrite, hproj]
    | some st =>
        simp only [upsertEligible, upsertWrite, hproj]
        split
        · rfl
        · rfl
  · intro w' p hp
    unfold ensureProjectExists
    simp [hp]

/-- Witness task for C7: sync tagged, sitting in the Inbox project. -/
def c7Task : TodoistTask :=
  { id := "T3", content := "Inbox task", description := "", project_id := "P0",
    section_id := none, parent_id := none, labels := ["capsync"], priority := 1,
    due := none, added_at := "2025-01-01T00:00:00Z", checked := false,
    completed_at := none, updated_at := none }

/-- Environment for the C7 witness: the project of the task is the
Inbox. -/
def c7Env : Env :=
  { baseEnv with
    fetchProject := fun pid =>
      { id := pid, name := "Inbox", color := "grey", is_shared := false,
        is_archived := false } }

theorem C7_inbox_exclusion_upsert_witness :
    (c7Env.fetchProject c7Task.project_id).name = "Inbox"
  ∧ eligibilityGate (has_capsync_label c7Task.labels) c7Task.checked
      (({ taskStates := [], projectStates := [] : World }).getTask "T3").isSome = .proceed
  ∧ handleUpsert defaultSettings c7Env { taskStates := [], projectStates := [] }
      { action := .UPSERT, todoist_task_id := "T3", snapshot := some c7Task } "webhook" =
      .ok ({ taskStates := [], projectStates := [] }, [], []) :=
  ⟨rfl, by decide,
   (C7_inbox_exclusion_upsert defaultSettings c7Env
      { taskStates := [], projectStates := [] }
      { action := .UPSERT, todoist_task_id := "T3", snapshot := some c7Task }
      c7Task "webhook" rfl rfl (by decide)).1⟩

/-- Counterexample for C7 as universally stated: a task now resolving to
the Inbox project, carrying a leftover record from before the move and
no longer sync tagged, reaches the archive path on UPSERT, and that path
issues a Sink write (the page archive) without ever consulting the
project. -/
def c7cTask : TodoistTask :=
  { id := "T4", content := "Moved to inbox", description := "", project_id := "P0",
    section_id := none, parent_id := none, labels := [], priority := 1,
    due := none, added_at := "2025-01-01T00:00:00Z", checked := false,
    completed_at := none, updated_at := none }

/-- The leftover record of the C7 counterexample task. -/
def c7cState : TaskSyncState :=
  { todoist_task_id := "T4", capacities_object_id := some "page-4",
    payload_hash := "h4", last_synced_at := 0, sync_status := .ok,
    error_message := none, sync_source := some "webhook" }

theorem C7_inbox_counterexample :
    (c7Env.fetchProject c7cTask.project_id).name = "Inbox"
  ∧ (handleUpsert defaultSettings c7Env
       { taskStates := [("T4", c7cState)], projectStates := [] }
       { action := .UPSERT, todoist_task_id := "T4", snapshot := some c7cTask }
       "webhook" =
     .ok (markTaskArchived c7Env { taskStates := [("T4", c7cState)], projectStates := [] } "T4",
          [.archiveTaskPage "page-4" true], []))
  ∧ ¬ ((handleUpsert defaultSettings c7Env
        { taskStates := [("T4", c7cState)], projectStates := [] }
        { action := .UPSERT, todoist_task_id := "T4", snapshot := some c7cTask }
        "webhook").map (fun out => countTaskPageWrites out.2.1) = .ok 0) := by
  refine ⟨rfl, by decide, by decide⟩

/-- Reading the undeclared reverse fingerprint attribute raises on every
record: the model declares no such field, so the lookup in the dumped
field dictionary fails independently of the field values. -/
theorem taskStateGetAttr_reverse_fingerprint (st : TaskSyncState) :
    taskStateGetAttr st "notion_payload_hash" =
      .error (.attributeError "notion_payload_hash") := rfl

/-- The reverse sweep page body either skips with the store untouched or
is stopped by the `AttributeError` on the undeclared reverse fingerprint
field; it can never reach its write section. -/
theorem syncNotionPageInner_cases (env : Env) (w : World) (page : NotionPage) :
    syncNotionPageInner env w page = .ok (w, [], .skipped) ∨
    syncNotionPageInner env w page = .error (.attributeError "notion_payload_hash") := by
  unfold syncNotionPageInner
  simp only []
  by_cases h : (extract_notion_task_properties page).todoist_task_id = ""
  · left
    rw [if_pos h]
    rfl
  · rw [if_neg h]
    cases hst : w.getTask (extract_notion_task_properties page).todoist_task_id with
    | none =>
        left
        rfl
    | some st =>
        right
        rfl

/-- The Notion page of the genuine edit fixture of the test suite: the
title was edited in the Sink while the record still carries the old
state. -/
def c2Page : NotionPage :=
  { id := "page-123", last_edited_time := "2026-02-14T10:05:00Z", archived := false,
    name_title := ["New Title"], priority_select := some "P1", due_date_start := none,
    completed_checkbox := false, todoist_id_text := ["task-abc"],
    project_relation := [] }

/-- The stored record of the C2 fixture. -/
def c2State : TaskSyncState :=
  { todoist_task_id := "task-abc", capacities_object_id := some "page-123",
    payload_hash := "old-payload-hash", last_synced_at := 0, sync_status := .ok,
    error_message := none, sync_source := some "webhook" }

/-- Environment of the C2 fixture: the Source still has the old title. -/
def c2Env : Env :=
  { baseEnv with
    fetchTask := fun tid =>
      .ok { id := tid, content := "Old Title", description := "", project_id := "P1",
            section_id := none, parent_id := none, labels := ["capsync"], priority := 1,
            due := none, added_at := "2026-01-01T00:00:00Z", checked := false,
            completed_at := none, updated_at := none } }

/-- Store of the C2 fixture. -/
def c2World : World := { taskStates := [("task-abc", c2State)], projectStates := [] }

/-- C2: the record carries no reverse fingerprint field at all, so on
every page with a record the comparison
`state.notion_payload_hash == current_hash` raises `AttributeError`; the
per page catch swallows it and the sweep performs no Source write for
any page — including, as the repository tests expect to succeed, the
genuine edit fixture, where the hashes differ, the field diff is non
empty, and the tests demand a Source update that the code never
performs. -/
theorem C2_echo_suppression_attribute_error :
    (∀ st : TaskSyncState,
       taskStateGetAttr st "notion_payload_hash" =
         .error (.attributeError "notion_payload_hash"))
  ∧ (∀ (env : Env) (w : World) (page : NotionPage),
       (syncNotionPage env w page).2.1 = [] ∧ (syncNotionPage env w page).1 = w)
  ∧ syncNotionPage c2Env c2World c2Page =
      (c2World, [], .errorCaught (.attributeError "notion_payload_hash"))
  ∧ (notion_props_differ (extract_notion_task_properties c2Page) "Old Title" 1 none
       false).isEmpty = false := by
  refine ⟨fun st => rfl, ?_, rfl, by decide⟩
  intro env w page
  rcases syncNotionPageInner_cases env w page with h | h <;>
    simp [syncNotionPage, h]

/-- The scenario one task of the spec: fresh, sync tagged, never synced
before. -/
def c3Task : TodoistTask :=
  { id := "T1", content := "Buy milk", description := "", project_id := "P1",
    section_id := none, parent_id := none, labels := ["capsync"], priority := 2,
    due := none, added_at := "2025-01-01T00:00:00Z", checked := false,
    completed_at := none, updated_at := none }

/-- The UPSERT message for the C3 fixture. -/
def c3Msg : PubSubMessage :=
  { action := .UPSERT, todoist_task_id := "T1", snapshot := some c3Task }

/-- An empty store. -/
def emptyWorld : World := { taskStates := [], projectStates := [] }

/-- C3: the record persisted by a successful forward write carries the
forward fingerprint, the sink page id, the sync timestamp and status OK —
but no reverse fingerprint: the state model declares no such field (the
dumped dictionary has exactly the seven declared keys and no
`notion_payload_hash` entry), and the worker never computes a hash of the
page properties as written. -/
theorem C3_forward_write_record_fields :
    (∀ st : TaskSyncState,
       st.model_dump.map Prod.fst =
         ["todoist_task_id", "capacities_object_id", "payload_hash", "last_synced_at",
          "sync_status", "error_message", "sync_source"]
     ∧ st.model_dump.lookup "notion_payload_hash" = none)
  ∧ countTaskPageWrites
      (processMessage defaultSettings baseEnv emptyWorld c3Msg "webhook").2.1 = 1
  ∧ (processMessage defaultSettings baseEnv emptyWorld c3Msg "webhook").1.getTask "T1" =
      some { todoist_task_id := "T1", capacities_object_id := some "page-new",
             payload_hash := currentPayloadHash baseEnv "T1" c3Task,
             last_synced_at := 7, sync_status := .ok, error_message := none,
             sync_source := some "webhook" } := by
  exact ⟨fun st => ⟨rfl, rfl⟩, rfl, rfl⟩

/-- The queue message of the C4 scenario: an UPSERT without a snapshot,
whose live task fetch fails (the environment of `baseEnv` answers 404,
the not found regression of the test suite). -/
def c4Msg : PubSubMessage :=
  { action := .UPSERT, todoist_task_id := "T9", snapshot := none }

/-- Counterexample for C4 as stated: a job whose state machine raises is
nevertheless answered with success by the queue push endpoint (never
with 500), because `process_message` swallows the exception after
marking the record. -/
theorem C4_counterexample_success_after_raise :
    workerActionResult defaultSettings baseEnv emptyWorld c4Msg "webhook" =
      .error (.httpStatusError 404)
  ∧ (processPubsub defaultSettings baseEnv emptyWorld (.valid c4Msg)).1 =
      .success "T9" "UPSERT"
  ∧ (processPubsub defaultSettings baseEnv emptyWorld (.valid c4Msg)).1 ≠
      .serverError500 := by
  refine ⟨rfl, rfl, by decide⟩

/-- C4 (amended): every exception of the per task state machine is caught
by the worker frame, which marks the record errored with the exception
text when a record exists (and writes nothing otherwise); the exception
is not re-raised, so the queue push endpoint reports success for the job
— there is no 500 and no queue redelivery for state machine failures. -/
theorem C4_amended_worker_error_policy (cfg : Settings) (env : Env) (w : World)
    (msg : PubSubMessage) (e : PyErr)
    (h : workerActionResult cfg env w msg "webhook" = .error e) :
    processMessage cfg env w msg "webhook" =
      (markTaskError env w msg.todoist_task_id e.toStr, [], [])
  ∧ (∀ st, w.getTask msg.todoist_task_id = some st →
       st.todoist_task_id = msg.todoist_task_id →
       (markTaskError env w msg.todoist_task_id e.toStr).getTask msg.todoist_task_id =
         some { st with sync_status := .error, error_message := some e.toStr,
                        last_synced_at := env.now })
  ∧ (w.getTask msg.todoist_task_id = none →
       markTaskError env w msg.todoist_task_id e.toStr = w)
  ∧ processPubsub cfg env w (.valid msg) =
      (.success msg.todoist_task_id msg.action.toStr,
       markTaskError env w msg.todoist_task_id e.toStr) := by
  refine ⟨?_, ?_, ?_, ?_⟩
  · unfold processMessage
    rw [h]
  · intro st hst hid
    unfold markTaskError
    rw [hst]
    simp [World.putTask, World.getTask, List.lookup, hid]
  · intro hnone
    unfold markTaskError
    rw [hnone]
  · have h1 : processMessage cfg env w msg "webhook" =
        (markTaskError env w msg.todoist_task_id e.toStr, [], []) := by
      unfold processMessage
      rw [h]
    simp only [processPubsub, h1]

/-- Witness for C4 (amended): the failing fetch job of the
counterexample, run through the worker frame, ends in the error marking
world with no calls, and the endpoint reports success. -/
theorem C4_amended_worker_error_policy_witness :
    workerActionResult defaultSettings baseEnv emptyWorld c4Msg "webhook" =
      .error (.httpStatusError 404)
  ∧ processMessage defaultSettings baseEnv emptyWorld c4Msg "webhook" =
      (markTaskError baseEnv emptyWorld "T9" (PyErr.httpStatusError 404).toStr, [], []) :=
  ⟨rfl,
   (C4_amended_worker_error_policy defaultSettings baseEnv emptyWorld c4Msg
      (.httpStatusError 404) rfl).1⟩

/-! ## Lemmas for the idempotency claim -/

theorem countTaskPageWrites_append (a b : List SinkCall) :
    countTaskPageWrites (a ++ b) = countTaskPageWrites a + countTaskPageWrites b := by
  simp [countTaskPageWrites, List.filter_append]

theorem ensureAreaExists_no_page_writes (cfg : Settings) (env : Env) (name : String) :
    countTaskPageWrites (ensureAreaExists cfg env name).2 = 0 := by
  unfold ensureAreaExists
  by_cases h : cfg.notion_areas_database_id = ""
  · simp [h, countTaskPageWrites]
  · cases hf : env.findAreaPage name <;>
      simp [h, hf, countTaskPageWrites, SinkCall.isTaskPageWrite]

theorem ensureAreas_no_page_writes (cfg : Settings) (env : Env) (names : List String) :
    countTaskPageWrites (ensureAreas cfg env names).2 = 0 := by
  induction names with
  | nil => rfl
  | cons n rest ih =>
      simp [ensureAreas, countTaskPageWrites_append, ensureAreaExists_no_page_writes, ih]

theorem getProjectAreas_no_page_writes (cfg : Settings) (env : Env) (pid : String) :
    countTaskPageWrites (getProjectAreas cfg env pid).2 = 0 := by
  unfold getProjectAreas
  exact ensureAreas_no_page_writes cfg env _

theorem ensureProjectExists_no_page_writes (cfg : Settings) (env : Env) (w : World)
    (p : NotionProject) :
    countTaskPageWrites (ensureProjectExists cfg env w p).2.1 = 0 := by
  unfold ensureProjectExists
  by_cases hi : p.name = "Inbox"
  · simp [hi, countTaskPageWrites]
  · simp only [hi, if_neg, ite_false]
    cases hs : (w.getProject p.todoist_project_id).bind (fun s => s.capacities_object_id) with
    | some page_id => simp [countTaskPageWrites]
    | none =>
        cases hf : env.findProjectPage p.todoist_project_id with
        | some page_id =>
            simp [countTaskPageWrites, SinkCall.isTaskPageWrite]
        | none =>
            simp only [countTaskPageWrites_append, getProjectAreas_no_page_writes]
            rfl

theorem ensureProjectExists_taskStates (cfg : Settings) (env : Env) (w : World)
    (p : NotionProject) :
    ((ensureProjectExists cfg env w p).1).taskStates = w.taskStates := by
  unfold ensureProjectExists
  by_cases hi : p.name = "Inbox"
  · simp [hi]
  · simp only [hi, ite_false]
    cases hs : (w.getProject p.todoist_project_id).bind (fun s => s.capacities_object_id) with
    | some page_id => rfl
    | none =>
        cases hf : env.findProjectPage p.todoist_project_id <;>
          simp [World.putProject]

theorem ensureProjectExists_getTask (cfg : Settings) (env : Env) (w : World)
    (p : NotionProject) (tid : String) :
    ((ensureProjectExists cfg env w p).1).getTask tid = w.getTask tid := by
  unfold World.getTask
  rw [ensureProjectExists_taskStates]

theorem ensureProjectExists_isSome (cfg : Settings) (env : Env) (w : World)
    (p : NotionProject) (h : p.name ≠ "Inbox") :
    ((ensureProjectExists cfg env w p).2.2).isSome = true := by
  unfold ensureProjectExists
  simp only [h, ite_false]
  cases hs : (w.getProject p.todoist_project_id).bind (fun s => s.capacities_object_id) with
  | some page_id => rfl
  | none => cases hf : env.findProjectPage p.todoist_project_id <;> simp

/-- The write phase on a fresh task (no prior record, no page found in the
Sink, project mapped): the record persisted carries the new page id and
the given fingerprint, and exactly one Sink task page write (the create)
is performed. -/
theorem upsertWrite_fresh (cfg : Settings) (env : Env) (w : World) (task_id : String)
    (task : TodoistTask) (todo : NotionToDo) (nproj : NotionProject) (hash : String)
    (src : String)
    (hnoinbox : nproj.name ≠ "Inbox")
    (hnostate : w.getTask task_id = none)
    (hnopage : env.findTodoPage task_id = none) :
    ∃ (w' : World) (calls : List SinkCall) (srcCalls : List SourceCall),
      upsertWrite cfg env w task_id task todo nproj hash none src = .ok (w', calls, srcCalls)
    ∧ countTaskPageWrites calls = 1
    ∧ w'.getTask task_id = some
        { todoist_task_id := task_id, capacities_object_id := some env.newTaskPageId,
          payload_hash := hash, last_synced_at := env.now, sync_status := .ok,
          error_message := none, sync_source := some src } := by
  have hrecheck : ((ensureProjectExists cfg env w nproj).1).getTask task_id = none := by
    rw [ensureProjectExists_getTask]
    exact hnostate
  unfold upsertWrite
  simp only []
  cases hs : (ensureProjectExists cfg env w nproj).2.2 with
  | none =>
      have := ensureProjectExists_isSome cfg env w nproj hnoinbox
      rw [hs] at this
      simp at this
  | some project_page_id =>
      rw [hnopage, hrecheck]
      simp only [Option.bind_none]
      refine ⟨_, _, _, rfl, ?_, ?_⟩
      · rw [countTaskPageWrites_append, countTaskPageWrites_append,
          countTaskPageWrites_append, ensureProjectExists_no_page_writes,
          ensureAreas_no_page_writes]
        cases hb : (todo.body ≠ "" || todo.comments_markdown ≠ "" : Bool) <;>
          simp [hb, countTaskPageWrites, SinkCall.isTaskPageWrite]
      · unfold World.getTask World.putTask
        simp [List.lookup]

/-- Unfolding of the upsert handler when the message carries no snapshot
and the live fetch succeeds. -/
theorem handleUpsert_fetch (cfg : Settings) (env : Env) (w : World)
    (msg : PubSubMessage) (task : TodoistTask) (src : String)
    (hsnap : msg.snapshot = none)
    (hfetch : env.fetchTask msg.todoist_task_id = .ok task) :
    handleUpsert cfg env w msg src =
      (match eligibilityGate (has_capsync_label task.labels) task.checked
          (w.getTask msg.todoist_task_id).isSome with
       | .archiveThenReturn => .ok (handleArchive env w msg.todoist_task_id)
       | .skip => .ok (w, [], [])
       | .proceed =>
           upsertEligible cfg env w msg.todoist_task_id task
             (w.getTask msg.todoist_task_id) src) := by
  unfold handleUpsert
  rw [hsnap, hfetch]
  rfl

/-- A labeled task routed through the worker frame runs the eligible
continuation of the upsert. -/
theorem processMessage_upsert_fetch (cfg : Settings) (env : Env) (w : World)
    (msg : PubSubMessage) (task : TodoistTask)
    (hact : msg.action = .UPSERT)
    (hsnap : msg.snapshot = none)
    (hfetch : env.fetchTask msg.todoist_task_id = .ok task)
    (hlabel : has_capsync_label task.labels = true) :
    processMessage cfg env w msg "webhook" =
      (match upsertEligible cfg env w msg.todoist_task_id task
          (w.getTask msg.todoist_task_id) "webhook" with
       | .ok out => out
       | .error e => (markTaskError env w msg.todoist_task_id e.toStr, [], [])) := by
  have hgate : eligibilityGate (has_capsync_label task.labels) task.checked
      (w.getTask msg.todoist_task_id).isSome = .proceed := by
    rw [hlabel]
    rfl
  unfold processMessage workerActionResult
  rw [hact]
  simp only []
  rw [handleUpsert_fetch cfg env w msg task "webhook" hsnap hfetch, hgate]

/-- The fingerprint short circuit: a labeled task whose prior record
carries the forward fingerprint of the current payload returns with the
store untouched and no Sink or Source call at all. -/
theorem processMessage_steady (cfg : Settings) (env : Env) (w : World)
    (msg : PubSubMessage) (task : TodoistTask) (st : TaskSyncState)
    (hact : msg.action = .UPSERT)
    (hsnap : msg.snapshot = none)
    (hfetch : env.fetchTask msg.todoist_task_id = .ok task)
    (hlabel : has_capsync_label task.labels = true)
    (hstate : w.getTask msg.todoist_task_id = some st)
    (hhash : st.payload_hash = currentPayloadHash env msg.todoist_task_id task) :
    processMessage cfg env w msg "webhook" = (w, [], []) := by
  rw [processMessage_upsert_fetch cfg env w msg task hact hsnap hfetch hlabel]
  unfold upsertEligible
  rw [hstate]
  have hh : st.payload_hash =
      compute_payload_hash (map_task_to_todo task (env.fetchProject task.project_id)
        (env.fetchComments msg.todoist_task_id)
        (task.section_id.map (fun sid => (env.fetchSection sid).name))).model_dump := hhash
  simp only [hh, if_pos]

/-- Once the store is in the steady state, every further delivery leaves
the world unchanged and adds nothing to the traces. -/
theorem runUpsertN_steady (cfg : Settings) (env : Env) (msg : PubSubMessage)
    (task : TodoistTask) (st : TaskSyncState) (n : Nat) (w : World)
    (hact : msg.action = .UPSERT)
    (hsnap : msg.snapshot = none)
    (hfetch : env.fetchTask msg.todoist_task_id = .ok task)
    (hlabel : has_capsync_label task.labels = true)
    (hstate : w.getTask msg.todoist_task_id = some st)
    (hhash : st.payload_hash = currentPayloadHash env msg.todoist_task_id task) :
    runUpsertN cfg env msg n w = (w, [], []) := by
  induction n with
  | zero => rfl
  | succ k ih =>
      unfold runUpsertN
      rw [processMessage_steady cfg env w msg task st hact hsnap hfetch hlabel hstate hhash]
      simp only [ih]
      rfl

/-- C1 (amended): consider a sync tagged task outside the Inbox with no
prior record and no pre existing Sink page, processed from a fixed
environment (no intervening changes: every delivery sees the same task).
Processing the UPSERT n times, for any n at least one, performs exactly
one Sink task page write in total: the first delivery creates the page
and persists the fingerprint, every further delivery returns at the
fingerprint check.  Moreover, for every store in which a prior record
holds the fingerprint of the current payload, the worker returns with the
store untouched and without a single Sink call.  (As stated over all
tasks the claim fails: an unlabeled task with a prior record archives the
Sink page on every delivery — see the counterexample.) -/
theorem C1_upsert_idempotent_amended (cfg : Settings) (env : Env) (w : World)
    (msg : PubSubMessage) (task : TodoistTask) (n : Nat)
    (hact : msg.action = .UPSERT)
    (hsnap : msg.snapshot = none)
    (hfetch : env.fetchTask msg.todoist_task_id = .ok task)
    (hlabel : has_capsync_label task.labels = true)
    (hnoinbox : (env.fetchProject task.project_id).name ≠ "Inbox")
    (hnostate : w.getTask msg.todoist_task_id = none)
    (hnopage : env.findTodoPage msg.todoist_task_id = none)
    (hn : 1 ≤ n) :
    countTaskPageWrites (runUpsertN cfg env msg n w).2.1 = 1
  ∧ (∀ (w' : World) (st : TaskSyncState),
       w'.getTask msg.todoist_task_id = some st →
       st.payload_hash = currentPayloadHash env msg.todoist_task_id task →
       processMessage cfg env w' msg "webhook" = (w', [], [])) := by
  constructor
  · obtain ⟨m, rfl⟩ : ∃ m, n = m + 1 := ⟨n - 1, by omega⟩
    have hfresh := upsertWrite_fresh cfg env w msg.todoist_task_id task
      (map_task_to_todo task (env.fetchProject task.project_id)
        (env.fetchComments msg.todoist_task_id)
        (Option.map (fun sid => (env.fetchSection sid).name) task.section_id))
      (map_project_to_notion (env.fetchProject task.project_id))
      (compute_payload_hash
        (map_task_to_todo task (env.fetchProject task.project_id)
          (env.fetchComments msg.todoist_task_id)
          (Option.map (fun sid => (env.fetchSection sid).name) task.section_id)).model_dump)
      "webhook"
      (by
        simpa [map_project_to_notion] using hnoinbox)
      hnostate hnopage
    obtain ⟨w₁, calls₁, src₁, hrun, hcount, hst₁⟩ := hfresh
    have hfirst : processMessage cfg env w msg "webhook" = (w₁, calls₁, src₁) := by
      rw [processMessage_upsert_fetch cfg env w msg task hact hsnap hfetch hlabel]
      simp only [upsertEligible, hnostate]
      rw [hrun]
    unfold runUpsertN
    rw [hfirst]
    simp only []
    rw [runUpsertN_steady cfg env msg task _ m w₁ hact hsnap hfetch hlabel hst₁ rfl]
    simpa [countTaskPageWrites_append] using hcount
  · intro w' st hstate hhash
    exact processMessage_steady cfg env w' msg task st hact hsnap hfetch hlabel hstate hhash

/-- Counterexample to C1 as universally stated: an UPSERT for a task
without the sync tag but with a prior record runs the archive path on
every delivery, so two deliveries perform two Sink page writes (two page
archives), not one. -/
theorem C1_counterexample_two_archive_writes :
    ¬ (countTaskPageWrites
        (runUpsertN defaultSettings baseEnv
          { action := .UPSERT, todoist_task_id := "T2", snapshot := some c5Task } 2
          { taskStates := [("T2", c5State)], projectStates := [] }).2.1 = 1) := by
  decide

/-- Environment of the C1 witness: a live fetch that returns the fresh
scenario one task. -/
def c1Env : Env := { baseEnv with fetchTask := fun _ => .ok c3Task }

/-- The C1 witness message: an UPSERT without snapshot. -/
def c1Msg : PubSubMessage :=
  { action := .UPSERT, todoist_task_id := "T1", snapshot := none }

theorem C1_upsert_idempotent_amended_witness :
    has_capsync_label c3Task.labels = true
  ∧ (c1Env.fetchProject c3Task.project_id).name ≠ "Inbox"
  ∧ countTaskPageWrites (runUpsertN defaultSettings c1Env c1Msg 3 emptyWorld).2.1 = 1 :=
  ⟨by decide, by decide,
   (C1_upsert_idempotent_amended defaultSettings c1Env emptyWorld c1Msg c3Task 3
      rfl rfl rfl (by decide) (by decide) rfl rfl (by decide)).1⟩

/-- C8: the payload fingerprint is the SHA-256 of the canonical JSON
serialization, with object keys sorted recursively and no insignificant
whitespace; consequently two payloads that differ only in the order of
keys within (possibly nested) maps — with the keys of each map pairwise
distinct, as Python dictionaries guarantee — have equal fingerprints. -/
theorem C8_fingerprint_key_order_stable {x x' : Json}
    (hwf : wfJson x = true) (heq : KeyOrderEq x x') :
    compute_payload_hash x = compute_payload_hash x' := by
  unfold compute_payload_hash
  rw [canon_eq_koe heq hwf]

/-- First payload of the C8 witness: two keys out of order, one nested
map also out of order. -/
def c8x : Json :=
  .obj [("b", .int 1), ("a", .obj [("d", .str "v"), ("c", .bool true)])]

/-- Second payload of the C8 witness: the same maps with keys in the
other order. -/
def c8x' : Json :=
  .obj [("a", .obj [("c", .bool true), ("d", .str "v")]), ("b", .int 1)]

theorem C8_fingerprint_key_order_stable_witness :
    wfJson c8x = true
  ∧ KeyOrderEq c8x c8x'
  ∧ compute_payload_hash c8x = compute_payload_hash c8x' := by
  have hinner : KeyOrderEq (.obj [("d", .str "v"), ("c", .bool true)])
      (.obj [("c", .bool true), ("d", .str "v")]) :=
    KeyOrderEq.obj
      (KeyOrderEqObj.cons (KeyOrderEq.str "v")
        (KeyOrderEqObj.cons (KeyOrderEq.bool true) KeyOrderEqObj.nil))
      (List.Perm.swap ("c", Json.bool true) ("d", Json.str "v") [])
  have hk : KeyOrderEq c8x c8x' :=
    KeyOrderEq.obj
      (KeyOrderEqObj.cons (KeyOrderEq.int 1)
        (KeyOrderEqObj.cons hinner KeyOrderEqObj.nil))
      (List.Perm.swap ("a", Json.obj [("c", Json.bool true), ("d", Json.str "v")]) ("b", Json.int 1) [])
  exact ⟨by decide, hk, C8_fingerprint_key_order_stable (by decide) hk⟩

end TodoistSync
